import Mathlib

/-!
# High-resolution screenshot configuration (HighResScreenshot.cpp)

A shallow embedding of `Engine/Source/Runtime/Engine/Private/HighResScreenshot.cpp`:
the two capture configurations (`FHighResScreenshotConfig`,
`FHighResStandaloneBufferDumpConfig`), the process-wide globals they write, and
the single-precision arithmetic used to size a capture.

Conventions
* `uint32` values are `Nat` (the code never lets one wrap; conversions from
  `float` are spelled out in `F32.toU32`).
* `float` is `F32`, a model of IEEE-754 binary32 with round-to-nearest-even.
* Member functions take the object as an argument and return the new object;
  globals travel in `Globals`.
-/

namespace HighResScreenshot

/-! ## Single-precision floats -/

/-- Number of binary digits of `n`, computed with fuel `fuel` (`fuel = n` always suffices). -/
def bitLenAux : Nat → Nat → Nat
  | 0, _ => 0
  | fuel + 1, n => if n = 0 then 0 else bitLenAux fuel (n / 2) + 1

/-- Number of binary digits of `n` (`bitLen 0 = 0`, `bitLen 1 = 1`, `bitLen 4 = 3`). -/
def bitLen (n : Nat) : Nat := bitLenAux n n

/-- An IEEE-754 binary32 datum. `fin neg m e` denotes `(-1)^neg * m * 2^e`; the
binary32 values are those with `m < 2^24` and `-149 ≤ e ≤ 104`. -/
inductive F32 where
  | nan : F32
  | inf (neg : Bool) : F32
  | fin (neg : Bool) (m : Nat) (e : Int) : F32
  deriving DecidableEq, Repr

namespace F32

/-- Whether the datum is written in binary32 form: significand below `2^24`, exponent
between `-149` and `104`. Every binary32 value has such a form. -/
def isBinary32 : F32 → Bool
  | nan => true
  | inf _ => true
  | fin _ m e => decide (m < 2 ^ 24) && decide (-149 ≤ e) && decide (e ≤ 104)

/-- Quotient of `n` by `2^shift`, rounded to nearest, ties to even. -/
def roundNearestEven (n shift : Nat) : Nat :=
  let q := n / 2 ^ shift
  let r := n % 2 ^ shift
  if 2 * r > 2 ^ shift ∨ (2 * r = 2 ^ shift ∧ q % 2 = 1) then q + 1 else q

/-- Round the exact value `(-1)^neg * n * 2^e` to binary32: 24 significant bits,
least exponent `-149` (gradual underflow), overflow to infinity. -/
def round (neg : Bool) (n : Nat) (e : Int) : F32 :=
  let shift : Nat := max (bitLen n - 24) (-149 - e).toNat
  let m := roundNearestEven n shift
  let e1 : Int := e + shift
  if m ≠ 0 ∧ (bitLen m : Int) + e1 > 128 then inf neg else fin neg m e1

/-- Conversion `uint32 → float`, as in `(float)ResolutionX`. -/
def ofU32 (n : Nat) : F32 := round false n 0

/-- Single-precision product `a * b`. -/
def mul : F32 → F32 → F32
  | nan, _ => nan
  | _, nan => nan
  | inf n1, inf n2 => inf (xor n1 n2)
  | inf n1, fin n2 m _ => if m = 0 then nan else inf (xor n1 n2)
  | fin n1 m _, inf n2 => if m = 0 then nan else inf (xor n1 n2)
  | fin n1 m1 e1, fin n2 m2 e2 => round (xor n1 n2) (m1 * m2) (e1 + e2)

/-- Comparison `m1 * 2^e1 < m2 * 2^e2` of two magnitudes. -/
def magLt (m1 : Nat) (e1 : Int) (m2 : Nat) (e2 : Int) : Bool :=
  decide (m1 * 2 ^ (e1 - e2).toNat < m2 * 2 ^ (e2 - e1).toNat)

/-- Comparison `a < b` (false as soon as one side is NaN; `-0 = +0`). -/
def lt : F32 → F32 → Bool
  | nan, _ => false
  | _, nan => false
  | inf n1, inf n2 => n1 && !n2
  | inf n1, fin _ _ _ => n1
  | fin _ _ _, inf n2 => !n2
  | fin false m1 e1, fin false m2 e2 => magLt m1 e1 m2 e2
  | fin false _ _, fin true _ _ => false
  | fin true m1 _, fin false m2 _ => decide (m1 ≠ 0 ∨ m2 ≠ 0)
  | fin true m1 e1, fin true m2 e2 => magLt m2 e2 m1 e1

/-- Comparison `a > b`. -/
def gt (a b : F32) : Bool := lt b a

/-- Comparison `a ≤ b` (false as soon as one side is NaN). -/
def le : F32 → F32 → Bool
  | nan, _ => false
  | _, nan => false
  | a, b => !(lt b a)

/-- The integer part of a finite magnitude `m * 2^e` (truncation toward zero). -/
def truncMag (m : Nat) (e : Int) : Nat :=
  if 0 ≤ e then m * 2 ^ e.toNat else m / 2 ^ (-e).toNat

/-- Conversion `float → uint32`, as in the implicit conversion of an assignment to a
`uint32`: the value is truncated toward zero. When the truncated value is not a
`uint32` the C++ standard leaves the result undefined; the model then takes the
value `undef x % 2^32` supplied by the platform. -/
def toU32 (undef : F32 → Nat) : F32 → Nat
  | fin neg m e =>
      let t := truncMag m e
      if t = 0 then 0
      else if neg = false ∧ t < 2 ^ 32 then t
      else undef (fin neg m e) % 2 ^ 32
  | x => undef x % 2 ^ 32

end F32

/-! ## Engine types used by the configuration -/

/-- The colour sample `FColor`: four 8-bit channels. -/
structure FColor where
  R : Nat
  G : Nat
  B : Nat
  A : Nat
  deriving DecidableEq, Repr

/-- The integer rectangle `FIntRect` (`Min.X`, `Min.Y`, `Max.X`, `Max.Y`). -/
structure FIntRect where
  MinX : Int
  MinY : Int
  MaxX : Int
  MaxY : Int
  deriving DecidableEq, Repr

/-- Identity of a scene viewport; a `TWeakPtr<FSceneViewport>` is an `Option ViewportId`
together with the liveness test of the platform. -/
abbrev ViewportId := Nat

/-- The values of `EImageFormat`. -/
inductive EImageFormat where
  | Invalid | PNG | JPEG | GrayscaleJPEG | BMP | ICO | EXR | ICNS
  deriving DecidableEq, Repr

/-- The values of `EImageCompressionQuality`. -/
inductive EImageCompressionQuality where
  | Default | Uncompressed
  deriving DecidableEq, Repr

/-- The cast `(int32)EImageCompressionQuality::X`. -/
def EImageCompressionQuality.toInt32 : EImageCompressionQuality → Int
  | .Default => 0
  | .Uncompressed => 1

/-- The fields of `FImageWriteTask` that the configuration reads or writes. -/
structure FImageWriteTask where
  Format : EImageFormat
  CompressionQuality : Int
  Filename : String
  deriving DecidableEq, Repr

/-- Lines written to an `FOutputDevice` by `Logf`. -/
abbrev FOutputDevice := List String

/-- Process-wide capture globals. -/
structure Globals where
  GScreenshotResolutionX : Nat
  GScreenshotResolutionY : Nat
  GIsHighResScreenshot : Bool
  GVisualizationDumpResolutionX : Nat
  GVisualizationDumpResolutionY : Nat
  GIsHighResStandaloneBufferDump : Bool
  deriving DecidableEq, Repr

/-- What the configuration asks of the platform: `GetMax2DTextureDimension()`, the
liveness of weak viewport pointers, the two console variables, and the result of an
out-of-range `float → uint32` conversion. -/
structure Platform where
  Max2DTextureDimension : Nat
  isLive : ViewportId → Bool
  DumpFramesAsHDR : Int
  SaveEXRCompressionQuality : Int
  undefCvt : F32 → Nat

/-- The value stored by `N *= Scale` and by `N = (X * Scale)` for a `uint32` target:
the single-precision product of `(float)X` and `Scale`, converted back to `uint32`. -/
def scaledU32 (P : Platform) (X : Nat) (Scale : F32) : Nat :=
  F32.toU32 P.undefCvt (F32.mul (F32.ofU32 X) Scale)

/-- Outcome of a call that returns `bool` and may write the configuration, the globals
and an output device. -/
structure Outcome (Config : Type) where
  ret : Bool
  cfg : Config
  g : Globals
  Ar : FOutputDevice

/-! ## FHighResScreenshotConfig -/

/-- The data members of `FHighResScreenshotConfig` used by HighResScreenshot.cpp. -/
structure FHighResScreenshotConfig where
  UnscaledCaptureRegion : FIntRect
  CaptureRegion : FIntRect
  ResolutionMultiplier : F32
  ResolutionMultiplierScale : F32
  bMaskEnabled : Bool
  bDateTimeBasedNaming : Bool
  bDumpBufferVisualizationTargets : Bool
  TargetViewport : Option ViewportId
  bCaptureHDR : Bool
  bForce128BitRendering : Bool
  FilenameOverride : String
  deriving DecidableEq, Repr

/-- The references handed to `GetHighResScreenShotInput`, in parameter order after the
command and the output device. -/
structure ShotInput where
  OutXRes : Nat
  OutYRes : Nat
  OutResMult : F32
  OutCaptureRegion : FIntRect
  OutShouldEnableMask : Bool
  OutDumpBufferVisualizationTargets : Bool
  OutCaptureHDR : Bool
  OutFilenameOverride : String
  OutUseDateTimeAsFileName : Bool
  deriving DecidableEq, Repr

/-- The external parser `GetHighResScreenShotInput`: from the command, the output device
and the current referents it yields its verdict, the output device and the referents
as it leaves them. -/
abbrev ShotParser := String → FOutputDevice → ShotInput → Bool × FOutputDevice × ShotInput

namespace FHighResScreenshotConfig

/-- `FHighResScreenshotConfig::MinResolutionMultipler = 1.0f`. -/
def MinResolutionMultipler : F32 := .fin false 1 0

/-- `FHighResScreenshotConfig::MaxResolutionMultipler = 10.0f`. -/
def MaxResolutionMultipler : F32 := .fin false 10 0

/-- `FOutputDevice::Logf` of the size error, with both `%d` filled by the maximum. -/
def sizeError (what : String) (maxDim : Nat) : String :=
  "Error: " ++ what ++ " size exceeds the maximum allowed texture size (" ++
    toString maxDim ++ " x " ++ toString maxDim ++ ")"

/-- `PopulateImageTaskParams(InOutTask)`. -/
def PopulateImageTaskParams (P : Platform) (c : FHighResScreenshotConfig)
    (InOutTask : FImageWriteTask) : FImageWriteTask :=
  let bCaptureHDREnabledInUI := c.bCaptureHDR && c.bDumpBufferVisualizationTargets
  let bLocalCaptureHDR := bCaptureHDREnabledInUI || decide (P.DumpFramesAsHDR ≠ 0)
  let t1 : FImageWriteTask :=
    { InOutTask with Format := if bLocalCaptureHDR then EImageFormat.EXR else EImageFormat.PNG }
  let t2 : FImageWriteTask :=
    { t1 with CompressionQuality := EImageCompressionQuality.Default.toInt32 }
  if bLocalCaptureHDR && decide (P.SaveEXRCompressionQuality = 0) then
    { t2 with CompressionQuality := EImageCompressionQuality.Uncompressed.toInt32 }
  else t2

/-- The viewports on which `Invalidate()` is called by `ChangeViewport`: the old target,
when its weak pointer still pins. -/
def invalidatedBy (P : Platform) (TargetViewport : Option ViewportId) : List ViewportId :=
  match TargetViewport with
  | some v => if P.isLive v then [v] else []
  | none => []

/-- `ChangeViewport(InViewport)`: the new configuration and the viewports invalidated. -/
def ChangeViewport (P : Platform) (InViewport : Option ViewportId)
    (c : FHighResScreenshotConfig) : FHighResScreenshotConfig × List ViewportId :=
  let inval := invalidatedBy P c.TargetViewport
  let c1 := { c with UnscaledCaptureRegion := ⟨0, 0, 0, 0⟩ }
  let c2 := { c1 with CaptureRegion := c1.UnscaledCaptureRegion }
  let c3 := { c2 with bMaskEnabled := false }
  let c4 := { c3 with bDateTimeBasedNaming := false }
  let c5 := { c4 with bDumpBufferVisualizationTargets := false }
  let c6 := { c5 with ResolutionMultiplier := MinResolutionMultipler }
  let c7 := { c6 with ResolutionMultiplierScale := .fin false 0 0 }
  ({ c7 with TargetViewport := InViewport }, inval)

/-- `SetHDRCapture(bCaptureHDRIN)`. -/
def SetHDRCapture (bCaptureHDRIN : Bool) (c : FHighResScreenshotConfig) :
    FHighResScreenshotConfig :=
  { c with bCaptureHDR := bCaptureHDRIN }

/-- `SetForce128BitRendering(bForce)`. -/
def SetForce128BitRendering (bForce : Bool) (c : FHighResScreenshotConfig) :
    FHighResScreenshotConfig :=
  { c with bForce128BitRendering := bForce }

/-- `SetFilename(Filename)`. -/
def SetFilename (Filename : String) (c : FHighResScreenshotConfig) :
    FHighResScreenshotConfig :=
  { c with FilenameOverride := Filename }

/-- `SetMaskEnabled(bShouldMaskBeEnabled)`. -/
def SetMaskEnabled (bShouldMaskBeEnabled : Bool) (c : FHighResScreenshotConfig) :
    FHighResScreenshotConfig :=
  { c with bMaskEnabled := bShouldMaskBeEnabled }

/-- The constructor: member initialisers on the raw storage `raw` (whatever the members
without an initialiser hold, except the default-constructed rectangles, weak pointer
and string), then the three calls of its body. -/
def construct (P : Platform) (raw : FHighResScreenshotConfig) : FHighResScreenshotConfig :=
  let c0 : FHighResScreenshotConfig :=
    { raw with
      UnscaledCaptureRegion := ⟨0, 0, 0, 0⟩
      CaptureRegion := ⟨0, 0, 0, 0⟩
      ResolutionMultiplier := MinResolutionMultipler
      ResolutionMultiplierScale := .fin false 0 0
      bMaskEnabled := false
      bDateTimeBasedNaming := false
      bDumpBufferVisualizationTargets := false
      TargetViewport := none
      FilenameOverride := "" }
  SetForce128BitRendering false (SetHDRCapture false (ChangeViewport P none c0).1)

/-- The first four statements of `ParseConsoleCommand`: both pending-resolution globals
to 0, the multiplier to its minimum, the multiplier scale to 0. -/
def entryReset (c : FHighResScreenshotConfig) (g : Globals) :
    FHighResScreenshotConfig × Globals :=
  let g1 := { g with GScreenshotResolutionX := 0 }
  let g2 := { g1 with GScreenshotResolutionY := 0 }
  let c1 := { c with ResolutionMultiplier := MinResolutionMultipler }
  let c2 := { c1 with ResolutionMultiplierScale := .fin false 0 0 }
  (c2, g2)

/-- The objects bound to the reference parameters of `GetHighResScreenShotInput` at the
call in `ParseConsoleCommand`. -/
def refsOf (c : FHighResScreenshotConfig) (g : Globals) : ShotInput :=
  { OutXRes := g.GScreenshotResolutionX
    OutYRes := g.GScreenshotResolutionY
    OutResMult := c.ResolutionMultiplier
    OutCaptureRegion := c.CaptureRegion
    OutShouldEnableMask := c.bMaskEnabled
    OutDumpBufferVisualizationTargets := c.bDumpBufferVisualizationTargets
    OutCaptureHDR := c.bCaptureHDR
    OutFilenameOverride := c.FilenameOverride
    OutUseDateTimeAsFileName := c.bDateTimeBasedNaming }

/-- The configuration and globals once the parser has written through its references. -/
def writeBack (o : ShotInput) (c : FHighResScreenshotConfig) (g : Globals) :
    FHighResScreenshotConfig × Globals :=
  ({ c with
      ResolutionMultiplier := o.OutResMult
      CaptureRegion := o.OutCaptureRegion
      bMaskEnabled := o.OutShouldEnableMask
      bDumpBufferVisualizationTargets := o.OutDumpBufferVisualizationTargets
      bCaptureHDR := o.OutCaptureHDR
      FilenameOverride := o.OutFilenameOverride
      bDateTimeBasedNaming := o.OutUseDateTimeAsFileName },
   { g with GScreenshotResolutionX := o.OutXRes, GScreenshotResolutionY := o.OutYRes })

/-- `ParseConsoleCommand(InCmd, Ar)`, with the external parser as `parser`. -/
def ParseConsoleCommand (P : Platform) (parser : ShotParser) (InCmd : String)
    (Ar : FOutputDevice) (c : FHighResScreenshotConfig) (g : Globals) :
    Outcome FHighResScreenshotConfig :=
  let s2 := entryReset c g
  let r := parser InCmd Ar (refsOf s2.1 s2.2)
  let Ar1 := r.2.1
  let s3 := writeBack r.2.2 s2.1 s2.2
  let c3 := s3.1
  let g3 := s3.2
  if r.1 then
    let X := scaledU32 P g3.GScreenshotResolutionX c3.ResolutionMultiplier
    let g4 := { g3 with GScreenshotResolutionX := X }
    let Y := scaledU32 P g4.GScreenshotResolutionY c3.ResolutionMultiplier
    let g5 := { g4 with GScreenshotResolutionY := Y }
    let MaxTextureDimension := P.Max2DTextureDimension
    if g5.GScreenshotResolutionX > MaxTextureDimension ∨
        g5.GScreenshotResolutionY > MaxTextureDimension then
      ⟨false, c3, g5, Ar1 ++ [sizeError "Screenshot" P.Max2DTextureDimension]⟩
    else
      ⟨true, c3, { g5 with GIsHighResScreenshot := true }, Ar1⟩
  else
    ⟨false, c3, g3, Ar1⟩

/-- Outcome of `MergeMaskIntoAlpha`: the returned `bWritten`, the bitmap as left, and
whether the `ensureMsgf` condition failed (a reported, non-fatal mismatch). -/
structure MergeOutcome where
  bWritten : Bool
  InBitmap : List FColor
  bEnsureFailed : Bool
  deriving DecidableEq, Repr

/-- One iteration `InBitmap[i].A = (*MaskArray)[i].R` of the masking loop. -/
def maskStep (MaskArray : List FColor) (InBitmap : List FColor) (i : Nat) : List FColor :=
  match InBitmap[i]?, MaskArray[i]? with
  | some c, some m => InBitmap.set i { c with A := m.R }
  | _, _ => InBitmap

/-- `MergeMaskIntoAlpha(InBitmap)`, with the array behind
`FScreenshotRequest::GetHighresScreenshotMaskColorArray()` as `MaskArray`. -/
def MergeMaskIntoAlpha (c : FHighResScreenshotConfig) (MaskArray : List FColor)
    (InBitmap : List FColor) : MergeOutcome :=
  let bMaskMatches := !c.bMaskEnabled || decide (MaskArray.length = InBitmap.length)
  if c.bMaskEnabled && bMaskMatches then
    ⟨true, (List.range InBitmap.length).foldl (maskStep MaskArray) InBitmap, !bMaskMatches⟩
  else
    ⟨false, InBitmap.map (fun Color => { Color with A := 255 }), !bMaskMatches⟩

/-- `SetResolution(ResolutionX, ResolutionY, ResolutionScale)`. -/
def SetResolution (P : Platform) (ResolutionX ResolutionY : Nat) (ResolutionScale : F32)
    (c : FHighResScreenshotConfig) (g : Globals) : Bool × FHighResScreenshotConfig × Globals :=
  let MaxDim := F32.ofU32 P.Max2DTextureDimension
  if F32.gt (F32.mul (F32.ofU32 ResolutionX) ResolutionScale) MaxDim ∨
      F32.gt (F32.mul (F32.ofU32 ResolutionY) ResolutionScale) MaxDim then
    (false, c, g)
  else
    let c1 := { c with UnscaledCaptureRegion := ⟨0, 0, 0, 0⟩ }
    let c2 := { c1 with CaptureRegion := c1.UnscaledCaptureRegion }
    let c3 := { c2 with bMaskEnabled := false }
    let g1 := { g with GScreenshotResolutionX := scaledU32 P ResolutionX ResolutionScale }
    let g2 := { g1 with GScreenshotResolutionY := scaledU32 P ResolutionY ResolutionScale }
    (true, c3, { g2 with GIsHighResScreenshot := true })

end FHighResScreenshotConfig

/-! ## FHighResStandaloneBufferDumpConfig -/

/-- The data members of `FHighResStandaloneBufferDumpConfig` used by HighResScreenshot.cpp. -/
structure FHighResStandaloneBufferDumpConfig where
  UnscaledCaptureRegion : FIntRect
  CaptureRegion : FIntRect
  ResolutionMultiplier : F32
  ResolutionMultiplierScale : F32
  bStandaloneDumpBufferVisualizationTargets : Bool
  SelectedMaterialNames : String
  TargetViewport : Option ViewportId
  FilenameOverride : String
  deriving DecidableEq, Repr

/-- The references handed to `GetHighResStandaloneBufferDumpInput`, in parameter order
after the command and the output device. -/
structure DumpInput where
  OutXRes : Nat
  OutYRes : Nat
  OutResMult : F32
  OutCaptureRegion : FIntRect
  OutDumpBufferVisualizationTargets : Bool
  OutFilenameOverride : String
  deriving DecidableEq, Repr

/-- The external parser `GetHighResStandaloneBufferDumpInput`. -/
abbrev DumpParser := String → FOutputDevice → DumpInput → Bool × FOutputDevice × DumpInput

namespace FHighResStandaloneBufferDumpConfig

/-- `FHighResStandaloneBufferDumpConfig::MinResolutionMultipler = 1.0f`. -/
def MinResolutionMultipler : F32 := .fin false 1 0

/-- `FHighResStandaloneBufferDumpConfig::MaxResolutionMultipler = 10.0f`. -/
def MaxResolutionMultipler : F32 := .fin false 10 0

/-- `PopulateImageTaskParams(InOutTask)`. -/
def PopulateImageTaskParams (_c : FHighResStandaloneBufferDumpConfig)
    (InOutTask : FImageWriteTask) : FImageWriteTask :=
  let t1 : FImageWriteTask := { InOutTask with Format := EImageFormat.PNG }
  { t1 with CompressionQuality := EImageCompressionQuality.Default.toInt32 }

/-- `ChangeViewport(InViewport)`: the new configuration and the viewports invalidated. -/
def ChangeViewport (P : Platform) (InViewport : Option ViewportId)
    (c : FHighResStandaloneBufferDumpConfig) :
    FHighResStandaloneBufferDumpConfig × List ViewportId :=
  let inval := FHighResScreenshotConfig.invalidatedBy P c.TargetViewport
  let c1 := { c with UnscaledCaptureRegion := ⟨0, 0, 0, 0⟩ }
  let c2 := { c1 with CaptureRegion := c1.UnscaledCaptureRegion }
  let c3 := { c2 with ResolutionMultiplier := MinResolutionMultipler }
  let c4 := { c3 with ResolutionMultiplierScale := .fin false 0 0 }
  ({ c4 with TargetViewport := InViewport }, inval)

/-- The constructor: member initialisers on the raw storage, then `ChangeViewport` of the
null weak pointer. -/
def construct (P : Platform) (raw : FHighResStandaloneBufferDumpConfig) :
    FHighResStandaloneBufferDumpConfig :=
  let c0 : FHighResStandaloneBufferDumpConfig :=
    { raw with
      UnscaledCaptureRegion := ⟨0, 0, 0, 0⟩
      CaptureRegion := ⟨0, 0, 0, 0⟩
      ResolutionMultiplier := MinResolutionMultipler
      ResolutionMultiplierScale := .fin false 0 0
      bStandaloneDumpBufferVisualizationTargets := false
      SelectedMaterialNames := ""
      TargetViewport := none
      FilenameOverride := "" }
  (ChangeViewport P none c0).1

/-- The first four statements of `ParseConsoleCommand`: both pending dump-resolution
globals to 0, the multiplier to its minimum, the multiplier scale to 0. -/
def entryReset (c : FHighResStandaloneBufferDumpConfig) (g : Globals) :
    FHighResStandaloneBufferDumpConfig × Globals :=
  let g1 := { g with GVisualizationDumpResolutionX := 0 }
  let g2 := { g1 with GVisualizationDumpResolutionY := 0 }
  let c1 := { c with ResolutionMultiplier := MinResolutionMultipler }
  let c2 := { c1 with ResolutionMultiplierScale := .fin false 0 0 }
  (c2, g2)

/-- The objects bound to the reference parameters of `GetHighResStandaloneBufferDumpInput`
at the call in `ParseConsoleCommand`. -/
def refsOf (c : FHighResStandaloneBufferDumpConfig) (g : Globals) : DumpInput :=
  { OutXRes := g.GVisualizationDumpResolutionX
    OutYRes := g.GVisualizationDumpResolutionY
    OutResMult := c.ResolutionMultiplier
    OutCaptureRegion := c.CaptureRegion
    OutDumpBufferVisualizationTargets := c.bStandaloneDumpBufferVisualizationTargets
    OutFilenameOverride := c.FilenameOverride }

/-- The configuration and globals once the parser has written through its references. -/
def writeBack (o : DumpInput) (c : FHighResStandaloneBufferDumpConfig) (g : Globals) :
    FHighResStandaloneBufferDumpConfig × Globals :=
  ({ c with
      ResolutionMultiplier := o.OutResMult
      CaptureRegion := o.OutCaptureRegion
      bStandaloneDumpBufferVisualizationTargets := o.OutDumpBufferVisualizationTargets
      FilenameOverride := o.OutFilenameOverride },
   { g with
      GVisualizationDumpResolutionX := o.OutXRes
      GVisualizationDumpResolutionY := o.OutYRes })

/-- `ParseConsoleCommand(InCmd, Ar)`, with the external parser as `parser`. -/
def ParseConsoleCommand (P : Platform) (parser : DumpParser) (InCmd : String)
    (Ar : FOutputDevice) (c : FHighResStandaloneBufferDumpConfig) (g : Globals) :
    Outcome FHighResStandaloneBufferDumpConfig :=
  let s2 := entryReset c g
  let r := parser InCmd Ar (refsOf s2.1 s2.2)
  let Ar1 := r.2.1
  let s3 := writeBack r.2.2 s2.1 s2.2
  let c3 := s3.1
  let g3 := s3.2
  if r.1 then
    let X := scaledU32 P g3.GVisualizationDumpResolutionX c3.ResolutionMultiplier
    let g4 := { g3 with GVisualizationDumpResolutionX := X }
    let Y := scaledU32 P g4.GVisualizationDumpResolutionY c3.ResolutionMultiplier
    let g5 := { g4 with GVisualizationDumpResolutionY := Y }
    let MaxTextureDimension := P.Max2DTextureDimension
    if g5.GVisualizationDumpResolutionX > MaxTextureDimension ∨
        g5.GScreenshotResolutionY > MaxTextureDimension then
      ⟨false, c3, g5,
        Ar1 ++ [FHighResScreenshotConfig.sizeError "Buffer Dump" P.Max2DTextureDimension]⟩
    else
      ⟨true, c3, { g5 with GIsHighResStandaloneBufferDump := true }, Ar1⟩
  else
    ⟨false, c3, g3, Ar1⟩

/-- `SetResolution(ResolutionX, ResolutionY, ResolutionScale)`. -/
def SetResolution (P : Platform) (ResolutionX ResolutionY : Nat) (ResolutionScale : F32)
    (c : FHighResStandaloneBufferDumpConfig) (g : Globals) :
    Bool × FHighResStandaloneBufferDumpConfig × Globals :=
  let MaxDim := F32.ofU32 P.Max2DTextureDimension
  if F32.gt (F32.mul (F32.ofU32 ResolutionX) ResolutionScale) MaxDim ∨
      F32.gt (F32.mul (F32.ofU32 ResolutionY) ResolutionScale) MaxDim then
    (false, c, g)
  else
    let c1 := { c with UnscaledCaptureRegion := ⟨0, 0, 0, 0⟩ }
    let c2 := { c1 with CaptureRegion := c1.UnscaledCaptureRegion }
    let g1 := { g with GVisualizationDumpResolutionX := scaledU32 P ResolutionX ResolutionScale }
    let g2 := { g1 with GVisualizationDumpResolutionY := scaledU32 P ResolutionY ResolutionScale }
    (true, c2, { g2 with GIsHighResStandaloneBufferDump := true })

/-- `SetFilename(Filename)`. -/
def SetFilename (Filename : String) (c : FHighResStandaloneBufferDumpConfig) :
    FHighResStandaloneBufferDumpConfig :=
  { c with FilenameOverride := Filename }

/-- `GetSelectedMaterialNames()`. -/
def GetSelectedMaterialNames (c : FHighResStandaloneBufferDumpConfig) : String :=
  c.SelectedMaterialNames

/-- `AddSelectedMaterialName(MaterialName)`. -/
def AddSelectedMaterialName (MaterialName : String) (c : FHighResStandaloneBufferDumpConfig) :
    FHighResStandaloneBufferDumpConfig :=
  { c with SelectedMaterialNames := c.SelectedMaterialNames ++ (MaterialName ++ ",") }

/-- `ClearSelectedMaterials()`. -/
def ClearSelectedMaterials (c : FHighResStandaloneBufferDumpConfig) :
    FHighResStandaloneBufferDumpConfig :=
  { c with SelectedMaterialNames := "" }

end FHighResStandaloneBufferDumpConfig

/-! ## Auxiliary definitions for the statements -/

/-- The pixel at index `i` once the masking loop has visited it. -/
def maskedAt (MaskArray InBitmap : List FColor) (i : Nat) : Option FColor :=
  match InBitmap[i]?, MaskArray[i]? with
  | some c, some m => some { c with A := m.R }
  | x, _ => x

/-- The rational denoted by a finite magnitude `m * 2^e`. -/
def F32.magValue (m : Nat) (e : Int) : ℚ := (m : ℚ) * (2 : ℚ) ^ e

/-- The rational denoted by a finite datum (0 for NaN and the infinities, which have no
rational value). -/
def F32.value : F32 → ℚ
  | .fin neg m e => if neg then -(F32.magValue m e) else F32.magValue m e
  | _ => 0

/-- Whether `PopulateImageTaskParams` selects HDR: the two capture flags together, or the
console variable `r.BufferVisualizationDumpFramesAsHDR` non-zero. -/
def hdrSelected (P : Platform) (c : FHighResScreenshotConfig) : Prop :=
  (c.bCaptureHDR = true ∧ c.bDumpBufferVisualizationTargets = true) ∨ P.DumpFramesAsHDR ≠ 0

/-- A scale within `[MinResolutionMultipler, MaxResolutionMultipler]`. -/
def inMultiplierRange (s : F32) : Prop :=
  F32.le FHighResScreenshotConfig.MinResolutionMultipler s = true ∧
  F32.le s FHighResScreenshotConfig.MaxResolutionMultipler = true

/-- What `GetHighResScreenShotInput` returns at the call made by
`FHighResScreenshotConfig::ParseConsoleCommand` from configuration `c` and globals `g`. -/
def parserResult (parser : ShotParser) (InCmd : String) (Ar : FOutputDevice)
    (c : FHighResScreenshotConfig) (g : Globals) : Bool × FOutputDevice × ShotInput :=
  parser InCmd Ar
    (FHighResScreenshotConfig.refsOf (FHighResScreenshotConfig.entryReset c g).1
      (FHighResScreenshotConfig.entryReset c g).2)

/-- What `GetHighResStandaloneBufferDumpInput` returns at the call made by
`FHighResStandaloneBufferDumpConfig::ParseConsoleCommand` from `c` and `g`. -/
def dumpParserResult (parser : DumpParser) (InCmd : String) (Ar : FOutputDevice)
    (c : FHighResStandaloneBufferDumpConfig) (g : Globals) : Bool × FOutputDevice × DumpInput :=
  parser InCmd Ar
    (FHighResStandaloneBufferDumpConfig.refsOf
      (FHighResStandaloneBufferDumpConfig.entryReset c g).1
      (FHighResStandaloneBufferDumpConfig.entryReset c g).2)

/-- A call that changes an `FHighResScreenshotConfig` or the globals. -/
inductive ShotOp where
  | ChangeViewport (InViewport : Option ViewportId)
  | SetResolution (ResolutionX ResolutionY : Nat) (ResolutionScale : F32)
  | SetFilename (Filename : String)
  | SetMaskEnabled (bShouldMaskBeEnabled : Bool)
  | SetHDRCapture (bCaptureHDRIN : Bool)
  | SetForce128BitRendering (bForce : Bool)
  | ParseConsoleCommand (parser : ShotParser) (InCmd : String) (Ar : FOutputDevice)

/-- The configuration and the globals after one call. -/
def ShotOp.apply (P : Platform) (op : ShotOp) (s : FHighResScreenshotConfig × Globals) :
    FHighResScreenshotConfig × Globals :=
  match op with
  | .ChangeViewport v => ((FHighResScreenshotConfig.ChangeViewport P v s.1).1, s.2)
  | .SetResolution w h k => (FHighResScreenshotConfig.SetResolution P w h k s.1 s.2).2
  | .SetFilename f => (FHighResScreenshotConfig.SetFilename f s.1, s.2)
  | .SetMaskEnabled b => (FHighResScreenshotConfig.SetMaskEnabled b s.1, s.2)
  | .SetHDRCapture b => (FHighResScreenshotConfig.SetHDRCapture b s.1, s.2)
  | .SetForce128BitRendering b => (FHighResScreenshotConfig.SetForce128BitRendering b s.1, s.2)
  | .ParseConsoleCommand parser InCmd Ar =>
      ((FHighResScreenshotConfig.ParseConsoleCommand P parser InCmd Ar s.1 s.2).cfg,
       (FHighResScreenshotConfig.ParseConsoleCommand P parser InCmd Ar s.1 s.2).g)

/-- The configuration and the globals after a sequence of calls, first call first. -/
def runShotOps (P : Platform) (ops : List ShotOp) (s : FHighResScreenshotConfig × Globals) :
    FHighResScreenshotConfig × Globals :=
  ops.foldl (fun st op => op.apply P st) s

/-- A call that changes an `FHighResStandaloneBufferDumpConfig` or the globals. -/
inductive DumpOp where
  | ChangeViewport (InViewport : Option ViewportId)
  | SetResolution (ResolutionX ResolutionY : Nat) (ResolutionScale : F32)
  | SetFilename (Filename : String)
  | AddSelectedMaterialName (MaterialName : String)
  | ClearSelectedMaterials
  | ParseConsoleCommand (parser : DumpParser) (InCmd : String) (Ar : FOutputDevice)

/-- The configuration and the globals after one call. -/
def DumpOp.apply (P : Platform) (op : DumpOp)
    (s : FHighResStandaloneBufferDumpConfig × Globals) :
    FHighResStandaloneBufferDumpConfig × Globals :=
  match op with
  | .ChangeViewport v => ((FHighResStandaloneBufferDumpConfig.ChangeViewport P v s.1).1, s.2)
  | .SetResolution w h k => (FHighResStandaloneBufferDumpConfig.SetResolution P w h k s.1 s.2).2
  | .SetFilename f => (FHighResStandaloneBufferDumpConfig.SetFilename f s.1, s.2)
  | .AddSelectedMaterialName n =>
      (FHighResStandaloneBufferDumpConfig.AddSelectedMaterialName n s.1, s.2)
  | .ClearSelectedMaterials => (FHighResStandaloneBufferDumpConfig.ClearSelectedMaterials s.1, s.2)
  | .ParseConsoleCommand parser InCmd Ar =>
      ((FHighResStandaloneBufferDumpConfig.ParseConsoleCommand P parser InCmd Ar s.1 s.2).cfg,
       (FHighResStandaloneBufferDumpConfig.ParseConsoleCommand P parser InCmd Ar s.1 s.2).g)

/-- A parser that never turns a multiplier within `[1.0, 10.0]` into one outside it. -/
def keepsMultiplierInRange (parser : ShotParser) : Prop :=
  ∀ (InCmd : String) (Ar : FOutputDevice) (i : ShotInput),
    inMultiplierRange i.OutResMult → inMultiplierRange (parser InCmd Ar i).2.2.OutResMult

/-- Whether the parsers of every `ParseConsoleCommand` in a sequence of calls keep the
multiplier in range. -/
def parsersKeepRange : List ShotOp → Prop
  | [] => True
  | .ParseConsoleCommand parser _ _ :: ops => keepsMultiplierInRange parser ∧ parsersKeepRange ops
  | _ :: ops => parsersKeepRange ops

/-! ## Sample data -/

/-- A platform with a 16384-texel texture limit, every weak pointer live, the HDR dump
switch off and the default EXR compression setting. -/
def samplePlatform : Platform :=
  { Max2DTextureDimension := 16384
    isLive := fun _ => true
    DumpFramesAsHDR := 0
    SaveEXRCompressionQuality := 1
    undefCvt := fun _ => 0 }

/-- A screenshot configuration with every field away from its default. -/
def sampleConfig : FHighResScreenshotConfig :=
  { UnscaledCaptureRegion := ⟨1, 2, 3, 4⟩
    CaptureRegion := ⟨5, 6, 7, 8⟩
    ResolutionMultiplier := .fin false 3 0
    ResolutionMultiplierScale := .fin false 1 0
    bMaskEnabled := true
    bDateTimeBasedNaming := true
    bDumpBufferVisualizationTargets := true
    TargetViewport := some 7
    bCaptureHDR := true
    bForce128BitRendering := true
    FilenameOverride := "shot" }

/-- A buffer-dump configuration with every field away from its default. -/
def sampleDumpConfig : FHighResStandaloneBufferDumpConfig :=
  { UnscaledCaptureRegion := ⟨1, 2, 3, 4⟩
    CaptureRegion := ⟨5, 6, 7, 8⟩
    ResolutionMultiplier := .fin false 3 0
    ResolutionMultiplierScale := .fin false 1 0
    bStandaloneDumpBufferVisualizationTargets := true
    SelectedMaterialNames := "M_Base,"
    TargetViewport := some 7
    FilenameOverride := "dump" }

/-- Globals with no capture pending. -/
def sampleGlobals : Globals :=
  { GScreenshotResolutionX := 0
    GScreenshotResolutionY := 0
    GIsHighResScreenshot := false
    GVisualizationDumpResolutionX := 0
    GVisualizationDumpResolutionY := 0
    GIsHighResStandaloneBufferDump := false }

/-- Globals left by an earlier capture. -/
def usedGlobals : Globals :=
  { GScreenshotResolutionX := 1920
    GScreenshotResolutionY := 1080
    GIsHighResScreenshot := true
    GVisualizationDumpResolutionX := 1280
    GVisualizationDumpResolutionY := 720
    GIsHighResStandaloneBufferDump := false }

/-- A four-pixel bitmap. -/
def sampleBitmap : List FColor :=
  [⟨1, 2, 3, 4⟩, ⟨5, 6, 7, 8⟩, ⟨9, 10, 11, 12⟩, ⟨13, 14, 15, 16⟩]

/-- A four-pixel mask with reds 10, 20, 30, 40. -/
def sampleMask : List FColor :=
  [⟨10, 0, 0, 255⟩, ⟨20, 0, 0, 255⟩, ⟨30, 0, 0, 255⟩, ⟨40, 0, 0, 255⟩]

/-- The float `1.5f`. -/
def onePointFive : F32 := .fin false 3 (-1)

/-- A screenshot parser that accepts with base resolution `w × h` and multiplier `m`,
leaving its other referents alone. -/
def acceptingShotParser (w h : Nat) (m : F32) : ShotParser :=
  fun _ Ar i => (true, Ar, { i with OutXRes := w, OutYRes := h, OutResMult := m })

/-- A buffer-dump parser that accepts with base resolution `w × h` and multiplier `m`,
leaving its other referents alone. -/
def acceptingDumpParser (w h : Nat) (m : F32) : DumpParser :=
  fun _ Ar i => (true, Ar, { i with OutXRes := w, OutYRes := h, OutResMult := m })

/-- A screenshot parser that reports failure and writes nothing. -/
def rejectingShotParser : ShotParser :=
  fun _ Ar i => (false, Ar, i)

/-- A buffer-dump parser that reports failure and writes nothing. -/
def rejectingDumpParser : DumpParser :=
  fun _ Ar i => (false, Ar, i)

/-- A screenshot parser that returns `ok` leaving `o` in its referents. -/
def writingShotParser (ok : Bool) (o : ShotInput) : ShotParser :=
  fun _ Ar _ => (ok, Ar, o)

/-- The float nearest to 4/3, `0x3FAAAAAB = 11184811 * 2^-23`, slightly above 4/3. -/
def fourThirds : F32 := .fin false 11184811 (-23)

/-- The float `20.0f`. -/
def twenty : F32 := .fin false 20 0

/-- What a parse of an oversized request with a mask may leave in the referents:
20000 × 1080, multiplier 2.0, a capture region, mask on, dump off, HDR off. -/
def oversizedParse : ShotInput :=
  { OutXRes := 20000
    OutYRes := 1080
    OutResMult := .fin false 2 0
    OutCaptureRegion := ⟨10, 20, 30, 40⟩
    OutShouldEnableMask := false
    OutDumpBufferVisualizationTargets := false
    OutCaptureHDR := false
    OutFilenameOverride := "other"
    OutUseDateTimeAsFileName := false }

/-- A platform whose texture limit, 16777219, is not a binary32 value. -/
def largeLimitPlatform : Platform :=
  { samplePlatform with Max2DTextureDimension := 16777219 }

/-- Raw storage for a configuration under construction. -/
def rawConfig : FHighResScreenshotConfig := sampleConfig

/-! # Theorems -/

open FHighResScreenshotConfig

/-! ## MergeMaskIntoAlpha -/

theorem maskStep_length (mask bm : List FColor) (i : Nat) :
    (maskStep mask bm i).length = bm.length := by
  unfold maskStep
  split <;> simp

theorem maskStep_getElem? (mask bm : List FColor) (i j : Nat) :
    (maskStep mask bm i)[j]? = if j = i then maskedAt mask bm i else bm[j]? := by
  unfold maskStep maskedAt
  by_cases hji : j = i
  · subst hji
    simp only [if_true]
    split
    · rename_i c m hc hm
      have hlt : j < bm.length := by
        rcases List.getElem?_eq_some_iff.mp hc with ⟨h, _⟩
        exact h
      simp [hc, hm, hlt]
    · rfl
  · simp only [if_neg hji]
    split
    · rw [List.getElem?_set_ne (Ne.symm hji)]
    · rfl


theorem foldl_maskStep (mask : List FColor) (n : Nat) (bm : List FColor) :
    ((List.range n).foldl (maskStep mask) bm).length = bm.length ∧
    ∀ i, ((List.range n).foldl (maskStep mask) bm)[i]? =
      if i < n then maskedAt mask bm i else bm[i]? := by
  induction n with
  | zero => simp
  | succ n ih =>
    rw [List.range_succ, List.foldl_append]
    simp only [List.foldl_cons, List.foldl_nil]
    refine ⟨by rw [maskStep_length]; exact ih.1, ?_⟩
    intro i
    rw [maskStep_getElem?]
    by_cases hin : i = n
    · subst hin
      simp only [if_true, Nat.lt_succ_self]
      unfold maskedAt
      rw [ih.2 i]
      simp
    · rw [if_neg hin, ih.2 i]
      by_cases hlt : i < n
      · simp [hlt, Nat.lt_succ_of_lt hlt]
      · have : ¬ i < n + 1 := by omega
        simp [hlt, this]

theorem maskedAt_A (mask bm : List FColor) (i : Nat) (h : mask.length = bm.length) :
    (maskedAt mask bm i).map FColor.A = (mask[i]?).map FColor.R := by
  unfold maskedAt
  by_cases hi : i < bm.length
  · have hm : i < mask.length := by omega
    simp [List.getElem?_eq_getElem hi, List.getElem?_eq_getElem hm]
  · have hm : ¬ i < mask.length := by omega
    simp [List.getElem?_eq_none (Nat.le_of_not_lt hi), List.getElem?_eq_none (Nat.le_of_not_lt hm)]

theorem mergeMask_alphas (c : FHighResScreenshotConfig)
    (MaskArray InBitmap : List FColor) (hEnabled : c.bMaskEnabled = true)
    (hLen : MaskArray.length = InBitmap.length) :
    (MergeMaskIntoAlpha c MaskArray InBitmap).InBitmap.map FColor.A
      = MaskArray.map FColor.R := by
  have hout : MergeMaskIntoAlpha c MaskArray InBitmap =
      ⟨true, (List.range InBitmap.length).foldl (maskStep MaskArray) InBitmap, false⟩ := by
    simp [MergeMaskIntoAlpha, hEnabled, hLen]
  rw [hout]
  have h := foldl_maskStep MaskArray InBitmap.length InBitmap
  apply List.ext_getElem?
  intro i
  simp only [List.getElem?_map]
  rw [h.2 i]
  by_cases hi : i < InBitmap.length
  · rw [if_pos hi]
    exact maskedAt_A MaskArray InBitmap i hLen
  · rw [if_neg hi]
    have hm : ¬ i < MaskArray.length := by omega
    simp [List.getElem?_eq_none (Nat.le_of_not_lt hi), List.getElem?_eq_none (Nat.le_of_not_lt hm)]


theorem map_alpha_255 (bm : List FColor) :
    (bm.map (fun Color : FColor => { Color with A := 255 })).map FColor.A
      = List.replicate bm.length 255 := by
  induction bm with
  | nil => rfl
  | cons x xs ih =>
    simp only [List.map_cons, List.length_cons, List.replicate_succ]
    rw [ih]

/-- C1: with masking enabled and a mask of the bitmap's length, `MergeMaskIntoAlpha`
returns true and the alpha of every pixel is the red of the mask at the same index. -/
theorem C1_MergeMaskIntoAlpha_masked (c : FHighResScreenshotConfig)
    (MaskArray InBitmap : List FColor) (hEnabled : c.bMaskEnabled = true)
    (hLen : MaskArray.length = InBitmap.length) :
    (MergeMaskIntoAlpha c MaskArray InBitmap).bWritten = true ∧
    (MergeMaskIntoAlpha c MaskArray InBitmap).InBitmap.length = InBitmap.length ∧
    (MergeMaskIntoAlpha c MaskArray InBitmap).InBitmap.map FColor.A
      = MaskArray.map FColor.R := by
  refine ⟨?_, ?_, mergeMask_alphas c MaskArray InBitmap hEnabled hLen⟩
  · simp [MergeMaskIntoAlpha, hEnabled, hLen]
  · have h := congrArg List.length (mergeMask_alphas c MaskArray InBitmap hEnabled hLen)
    simpa [hLen] using h

/-- C1, at the four-pixel scenario: mask reds 10, 20, 30, 40 become the alphas. -/
theorem C1_MergeMaskIntoAlpha_masked_witness :
    (MergeMaskIntoAlpha sampleConfig sampleMask sampleBitmap).bWritten = true ∧
    (MergeMaskIntoAlpha sampleConfig sampleMask sampleBitmap).InBitmap.length = 4 ∧
    (MergeMaskIntoAlpha sampleConfig sampleMask sampleBitmap).InBitmap.map FColor.A
      = [10, 20, 30, 40] :=
  C1_MergeMaskIntoAlpha_masked sampleConfig sampleMask sampleBitmap (by decide) (by decide)

/-- C2: when masking is disabled or the mask length differs from the bitmap length,
`MergeMaskIntoAlpha` returns false and every pixel gets alpha 255; and after any call
the alpha of every pixel is 255 or the red of the mask at the same index. -/
theorem C2_MergeMaskIntoAlpha_fallback (c : FHighResScreenshotConfig)
    (MaskArray InBitmap : List FColor) :
    ((c.bMaskEnabled = false ∨ MaskArray.length ≠ InBitmap.length) →
      (MergeMaskIntoAlpha c MaskArray InBitmap).bWritten = false ∧
      (MergeMaskIntoAlpha c MaskArray InBitmap).InBitmap.map FColor.A
        = List.replicate InBitmap.length 255) ∧
    (∀ (i : Nat) (px : FColor),
      (MergeMaskIntoAlpha c MaskArray InBitmap).InBitmap[i]? = some px →
        px.A = 255 ∨ ∃ m, MaskArray[i]? = some m ∧ px.A = m.R) := by
  have hfall : (c.bMaskEnabled = false ∨ MaskArray.length ≠ InBitmap.length) →
      MergeMaskIntoAlpha c MaskArray InBitmap =
        ⟨false, InBitmap.map (fun Color => { Color with A := 255 }),
          !(!c.bMaskEnabled || decide (MaskArray.length = InBitmap.length))⟩ := by
    intro h
    rcases h with h | h <;> simp [MergeMaskIntoAlpha, h]
  have hmapA := map_alpha_255 InBitmap
  refine ⟨fun h => ?_, ?_⟩
  · rw [hfall h]
    exact ⟨rfl, hmapA⟩
  · intro i px hpx
    by_cases h : c.bMaskEnabled = false ∨ MaskArray.length ≠ InBitmap.length
    · left
      rw [hfall h] at hpx
      simp only [List.getElem?_map] at hpx
      cases hb : InBitmap[i]? with
      | none => simp [hb] at hpx
      | some b =>
        simp [hb] at hpx
        rw [← hpx]
    · right
      have hEn : c.bMaskEnabled = true := by
        cases hc : c.bMaskEnabled with
        | true => rfl
        | false => exact absurd (Or.inl hc) h
      have hLen : MaskArray.length = InBitmap.length := by
        by_contra hne
        exact h (Or.inr hne)
      have h1 := mergeMask_alphas c MaskArray InBitmap hEn hLen
      have h2 : ((MergeMaskIntoAlpha c MaskArray InBitmap).InBitmap.map FColor.A)[i]?
          = (MaskArray.map FColor.R)[i]? := by rw [h1]
      simp only [List.getElem?_map, hpx, Option.map_some'] at h2
      cases hm : MaskArray[i]? with
      | none => simp [hm] at h2
      | some m =>
        refine ⟨m, rfl, ?_⟩
        simp [hm] at h2
        exact h2

/-- C2, at the four-pixel scenario with a three-pixel mask: nothing is written and the
alphas are all 255. -/
theorem C2_MergeMaskIntoAlpha_fallback_witness :
    (MergeMaskIntoAlpha sampleConfig (sampleMask.take 3) sampleBitmap).bWritten = false ∧
    (MergeMaskIntoAlpha sampleConfig (sampleMask.take 3) sampleBitmap).InBitmap.map FColor.A
      = [255, 255, 255, 255] :=
  (C2_MergeMaskIntoAlpha_fallback sampleConfig (sampleMask.take 3) sampleBitmap).1
    (Or.inr (by decide))

/-! ## PopulateImageTaskParams -/

/-- C3: the task format is EXR exactly when HDR is selected (both capture flags, or the
global switch), and PNG exactly when it is not. -/
theorem C3_PopulateImageTaskParams_format (P : Platform) (c : FHighResScreenshotConfig)
    (InOutTask : FImageWriteTask) :
    ((PopulateImageTaskParams P c InOutTask).Format = EImageFormat.EXR ↔
      ((c.bCaptureHDR = true ∧ c.bDumpBufferVisualizationTargets = true) ∨
        P.DumpFramesAsHDR ≠ 0)) ∧
    ((PopulateImageTaskParams P c InOutTask).Format = EImageFormat.PNG ↔
      ¬ ((c.bCaptureHDR = true ∧ c.bDumpBufferVisualizationTargets = true) ∨
        P.DumpFramesAsHDR ≠ 0)) := by
  unfold PopulateImageTaskParams
  by_cases h1 : c.bCaptureHDR = true <;> by_cases h2 : c.bDumpBufferVisualizationTargets = true <;>
    by_cases h3 : P.DumpFramesAsHDR = 0 <;> by_cases h4 : P.SaveEXRCompressionQuality = 0 <;>
    simp [h1, h2, h3, h4]

/-- C4: the task compression quality is Uncompressed exactly when HDR is selected and
the EXR quality setting is 0, and Default in every other case, whatever the task held. -/
theorem C4_PopulateImageTaskParams_compression (P : Platform) (c : FHighResScreenshotConfig)
    (InOutTask : FImageWriteTask) :
    ((PopulateImageTaskParams P c InOutTask).CompressionQuality
        = EImageCompressionQuality.Uncompressed.toInt32 ↔
      (hdrSelected P c ∧ P.SaveEXRCompressionQuality = 0)) ∧
    ((PopulateImageTaskParams P c InOutTask).CompressionQuality
        = EImageCompressionQuality.Default.toInt32 ↔
      ¬ (hdrSelected P c ∧ P.SaveEXRCompressionQuality = 0)) ∧
    (hdrSelected P c ↔ (PopulateImageTaskParams P c InOutTask).Format = EImageFormat.EXR) := by
  unfold PopulateImageTaskParams hdrSelected EImageCompressionQuality.toInt32
  by_cases h1 : c.bCaptureHDR = true <;> by_cases h2 : c.bDumpBufferVisualizationTargets = true <;>
    by_cases h3 : P.DumpFramesAsHDR = 0 <;> by_cases h4 : P.SaveEXRCompressionQuality = 0 <;>
    simp [h1, h2, h3, h4]

/-! ## Single-precision facts -/

/-- The comparison of magnitudes is the comparison of the rationals they denote. -/
theorem F32.magLt_iff (m1 : Nat) (e1 : Int) (m2 : Nat) (e2 : Int) :
    F32.magLt m1 e1 m2 e2 = true ↔ F32.magValue m1 e1 < F32.magValue m2 e2 := by
  unfold F32.magLt F32.magValue
  rw [decide_eq_true_iff]
  have h2 : (0 : ℚ) < 2 := by norm_num
  rcases le_total e2 e1 with h | h
  · obtain ⟨k, hk⟩ := Int.eq_ofNat_of_zero_le (sub_nonneg.mpr h)
    have he1 : e1 = e2 + k := by omega
    have hk1 : (e1 - e2).toNat = k := by omega
    have hk2 : (e2 - e1).toNat = 0 := by omega
    rw [hk1, hk2, he1, zpow_add₀ (by norm_num : (2 : ℚ) ≠ 0), zpow_natCast, pow_zero, mul_one]
    have hpos : (0 : ℚ) < 2 ^ e2 := zpow_pos h2 e2
    rw [show (m1 : ℚ) * (2 ^ e2 * 2 ^ k) = ((m1 * 2 ^ k : Nat) : ℚ) * 2 ^ e2 by push_cast; ring]
    rw [mul_lt_mul_right hpos, Nat.cast_lt]
  · obtain ⟨k, hk⟩ := Int.eq_ofNat_of_zero_le (sub_nonneg.mpr h)
    have he2 : e2 = e1 + k := by omega
    have hk1 : (e2 - e1).toNat = k := by omega
    have hk2 : (e1 - e2).toNat = 0 := by omega
    rw [hk1, hk2, he2, zpow_add₀ (by norm_num : (2 : ℚ) ≠ 0), zpow_natCast, pow_zero, mul_one]
    have hpos : (0 : ℚ) < 2 ^ e1 := zpow_pos h2 e1
    rw [show (m2 : ℚ) * (2 ^ e1 * 2 ^ k) = ((m2 * 2 ^ k : Nat) : ℚ) * 2 ^ e1 by push_cast; ring]
    rw [mul_lt_mul_right hpos, Nat.cast_lt]

/-- The integer part of a magnitude is the floor of the rational it denotes. -/
theorem F32.truncMag_eq_floor (m : Nat) (e : Int) :
    F32.truncMag m e = ⌊F32.magValue m e⌋₊ := by
  unfold F32.truncMag F32.magValue
  split
  · rename_i h
    obtain ⟨k, rfl⟩ := Int.eq_ofNat_of_zero_le h
    simp only [Int.toNat_ofNat, zpow_natCast]
    rw [show (m : ℚ) * 2 ^ k = ((m * 2 ^ k : Nat) : ℚ) by push_cast; ring, Nat.floor_natCast]
  · rename_i h
    obtain ⟨k, hk⟩ := Int.eq_ofNat_of_zero_le (show 0 ≤ -e by omega)
    have he : e = -(k : Int) := by omega
    have hk1 : (-e).toNat = k := by omega
    rw [hk1, he, zpow_neg, zpow_natCast, ← div_eq_mul_inv]
    rw [show ((2 : ℚ) ^ k) = ((2 ^ k : Nat) : ℚ) by push_cast; rfl, Nat.floor_div_eq_div]

theorem F32.round_cases (neg : Bool) (n : Nat) (e : Int) :
    F32.round neg n e = F32.inf neg ∨ ∃ m e1, F32.round neg n e = F32.fin neg m e1 := by
  unfold F32.round
  simp only
  split
  · exact Or.inl rfl
  · exact Or.inr ⟨_, _, rfl⟩

theorem F32.le_eq_not_gt (a b : F32) (ha : a ≠ F32.nan) (hb : b ≠ F32.nan) :
    F32.le a b = !(F32.gt a b) := by
  cases a <;> cases b <;> simp_all [F32.le, F32.gt]

theorem inMultiplierRange_pos (s : F32) (h : inMultiplierRange s) :
    ∃ m e, s = F32.fin false m e ∧ m ≠ 0 := by
  obtain ⟨h1, h2⟩ := h
  cases s with
  | nan => simp [F32.le, MinResolutionMultipler] at h1
  | inf neg =>
    cases neg <;>
      simp [F32.le, F32.lt, MinResolutionMultipler, MaxResolutionMultipler] at h1 h2
  | fin neg m e =>
    cases neg with
    | true => simp [F32.le, F32.lt, MinResolutionMultipler] at h1
    | false =>
      refine ⟨m, e, rfl, ?_⟩
      intro hm
      subst hm
      simp [F32.le, F32.lt, F32.magLt, MinResolutionMultipler] at h1

theorem mul_ofU32_cases (X : Nat) (s : F32) (h : inMultiplierRange s) :
    F32.mul (F32.ofU32 X) s = F32.inf false ∨
      ∃ m e, F32.mul (F32.ofU32 X) s = F32.fin false m e := by
  obtain ⟨ms, es, rfl, hms⟩ := inMultiplierRange_pos s h
  rcases F32.round_cases false X 0 with hX | ⟨m, e, hX⟩
  · left
    simp [F32.ofU32, hX, F32.mul, hms]
  · simp only [F32.ofU32, hX, F32.mul, Bool.xor_false]
    exact F32.round_cases false (m * ms) (e + es)

theorem mul_ofU32_ne_nan (X : Nat) (s : F32) (h : inMultiplierRange s) :
    F32.mul (F32.ofU32 X) s ≠ F32.nan := by
  rcases mul_ofU32_cases X s h with h1 | ⟨m, e, h1⟩ <;> simp [h1]

theorem ofU32_ne_nan (X : Nat) : F32.ofU32 X ≠ F32.nan := by
  rcases F32.round_cases false X 0 with h1 | ⟨m, e, h1⟩ <;> simp [F32.ofU32, h1]

/-! ## SetResolution -/

/-- For a scale within `[1.0, 10.0]` no NaN arises, so the guard of `SetResolution` (of
either configuration) is the single-precision comparison `product ≤ limit` on both
dimensions. -/
theorem SetResolution_true_iff_le (P : Platform) (w h : Nat) (scale : F32)
    (hScale : inMultiplierRange scale)
    (c : FHighResScreenshotConfig) (d : FHighResStandaloneBufferDumpConfig) (g : Globals) :
    ((FHighResScreenshotConfig.SetResolution P w h scale c g).1 = true ↔
      (F32.le (F32.mul (F32.ofU32 w) scale) (F32.ofU32 P.Max2DTextureDimension) = true ∧
       F32.le (F32.mul (F32.ofU32 h) scale) (F32.ofU32 P.Max2DTextureDimension) = true)) ∧
    ((FHighResStandaloneBufferDumpConfig.SetResolution P w h scale d g).1 = true ↔
      (F32.le (F32.mul (F32.ofU32 w) scale) (F32.ofU32 P.Max2DTextureDimension) = true ∧
       F32.le (F32.mul (F32.ofU32 h) scale) (F32.ofU32 P.Max2DTextureDimension) = true)) := by
  rw [F32.le_eq_not_gt _ _ (mul_ofU32_ne_nan w scale hScale) (ofU32_ne_nan _),
    F32.le_eq_not_gt _ _ (mul_ofU32_ne_nan h scale hScale) (ofU32_ne_nan _)]
  cases hx : F32.gt (F32.mul (F32.ofU32 w) scale) (F32.ofU32 P.Max2DTextureDimension) <;>
    cases hy : F32.gt (F32.mul (F32.ofU32 h) scale) (F32.ofU32 P.Max2DTextureDimension) <;>
    simp [FHighResScreenshotConfig.SetResolution,
      FHighResStandaloneBufferDumpConfig.SetResolution, hx, hy]

theorem bitLenAux_le (fuel : Nat) : ∀ (n k : Nat), n < 2 ^ k → bitLenAux fuel n ≤ k := by
  induction fuel with
  | zero => intro n k _; simp [bitLenAux]
  | succ fuel ih =>
    intro n k hn
    unfold bitLenAux
    split
    · exact Nat.zero_le _
    · rename_i hn0
      cases k with
      | zero =>
        have : n = 0 := by simpa using hn
        exact absurd this hn0
      | succ k =>
        have h2 : n / 2 < 2 ^ k := by
          rw [Nat.div_lt_iff_lt_mul (by decide)]
          rw [Nat.pow_succ] at hn
          exact hn
        exact Nat.succ_le_succ (ih (n / 2) k h2)

theorem ofU32_of_lt (n : Nat) (hn : n < 2 ^ 24) : F32.ofU32 n = F32.fin false n 0 := by
  have hb : bitLen n ≤ 24 := bitLenAux_le n n 24 hn
  have hs : bitLen n - 24 = 0 := by omega
  have hr : F32.roundNearestEven n 0 = n := by
    simp [F32.roundNearestEven, Nat.mod_one]
  have hmax : max (bitLen n - 24) (Int.toNat (-149 - 0)) = 0 := by
    rw [hs]
    decide
  unfold F32.ofU32 F32.round
  simp only [hmax, hr]
  have : ¬ (n ≠ 0 ∧ (bitLen n : Int) + (0 + ((0 : Nat) : Int)) > 128) := by
    intro h
    have := h.2
    omega
  simp only [if_neg this]
  simp

theorem roundNearestEven_le (n shift : Nat) : F32.roundNearestEven n shift ≤ n + 1 := by
  unfold F32.roundNearestEven
  have h := Nat.div_le_self n (2 ^ shift)
  simp only
  split <;> omega

theorem ofU32_finite (n : Nat) (hn : n < 2 ^ 32) : ∃ k e, F32.ofU32 n = F32.fin false k e := by
  have hb : bitLen n ≤ 32 := bitLenAux_le n n 32 hn
  have hm : bitLen (F32.roundNearestEven n (max (bitLen n - 24) (Int.toNat (-149 - 0)))) ≤ 33 := by
    apply bitLenAux_le
    have := roundNearestEven_le n (max (bitLen n - 24) (Int.toNat (-149 - 0)))
    omega
  have hs : max (bitLen n - 24) (Int.toNat (-149 - 0)) ≤ 8 := by
    have : Int.toNat (-149 - 0) = 0 := by decide
    rw [this]
    omega
  unfold F32.ofU32 F32.round
  simp only
  rw [if_neg]
  · exact ⟨_, _, rfl⟩
  · intro h
    have := h.2
    omega

theorem truncMag_le_of_le (m : Nat) (e : Int) (M : Nat)
    (h : F32.le (F32.fin false m e) (F32.fin false M 0) = true) : F32.truncMag m e ≤ M := by
  simp only [F32.le, F32.lt, F32.magLt, Bool.not_eq_true', decide_eq_false_iff_not, not_lt,
    zero_sub, sub_zero] at h
  unfold F32.truncMag
  split
  · rename_i he
    have h0 : (-e).toNat = 0 := by omega
    rw [h0] at h
    simpa using h
  · rename_i he
    have h0 : e.toNat = 0 := by omega
    rw [h0] at h
    simp only [pow_zero, mul_one] at h
    exact Nat.div_le_of_le_mul (by rw [Nat.mul_comm]; exact h)

theorem toU32_of_fits (undef : F32 → Nat) (m : Nat) (e : Int)
    (h : F32.truncMag m e < 2 ^ 32) :
    F32.toU32 undef (F32.fin false m e) = F32.truncMag m e := by
  have h1 : F32.truncMag m e < 4294967296 := h
  by_cases h0 : F32.truncMag m e = 0
  · simp [F32.toU32, h0]
  · simp [F32.toU32, h0, h1]

theorem le_fin_of_accept (a M : F32) (ha : a = F32.inf false ∨ ∃ m e, a = F32.fin false m e)
    (hM : ∃ k e, M = F32.fin false k e) (h : F32.gt a M = false) :
    ∃ m e, a = F32.fin false m e ∧ F32.le a M = true := by
  obtain ⟨k, ek, rfl⟩ := hM
  rcases ha with rfl | ⟨m, e, rfl⟩
  · simp [F32.gt, F32.lt] at h
  · refine ⟨m, e, rfl, ?_⟩
    simpa [F32.le, F32.gt] using h

theorem shot_SetResolution_stored (P : Platform) (w h : Nat) (scale : F32)
    (c : FHighResScreenshotConfig) (g : Globals)
    (hx : F32.gt (F32.mul (F32.ofU32 w) scale) (F32.ofU32 P.Max2DTextureDimension) = false)
    (hy : F32.gt (F32.mul (F32.ofU32 h) scale) (F32.ofU32 P.Max2DTextureDimension) = false) :
    (FHighResScreenshotConfig.SetResolution P w h scale c g).2.2.GScreenshotResolutionX
      = scaledU32 P w scale ∧
    (FHighResScreenshotConfig.SetResolution P w h scale c g).2.2.GScreenshotResolutionY
      = scaledU32 P h scale := by
  simp [FHighResScreenshotConfig.SetResolution, hx, hy]

theorem dump_SetResolution_stored (P : Platform) (w h : Nat) (scale : F32)
    (d : FHighResStandaloneBufferDumpConfig) (g : Globals)
    (hx : F32.gt (F32.mul (F32.ofU32 w) scale) (F32.ofU32 P.Max2DTextureDimension) = false)
    (hy : F32.gt (F32.mul (F32.ofU32 h) scale) (F32.ofU32 P.Max2DTextureDimension) = false) :
    (FHighResStandaloneBufferDumpConfig.SetResolution P w h scale d
      g).2.2.GVisualizationDumpResolutionX = scaledU32 P w scale ∧
    (FHighResStandaloneBufferDumpConfig.SetResolution P w h scale d
      g).2.2.GVisualizationDumpResolutionY = scaledU32 P h scale := by
  simp [FHighResStandaloneBufferDumpConfig.SetResolution, hx, hy]

/-- C6 (amended): for a scale within `[1.0, 10.0]` accepted by `SetResolution`, both
products are finite and non-negative and each pending-resolution global holds its product
truncated toward zero to an integer, whenever that integer is a `uint32`; it is one, and
at most the maximum texture dimension, when that maximum is below `2^24`. -/
theorem C6_SetResolution_stores_truncation (P : Platform) (w h : Nat) (scale : F32)
    (hScale : inMultiplierRange scale) (hMax : P.Max2DTextureDimension < 2 ^ 32)
    (c : FHighResScreenshotConfig) (d : FHighResStandaloneBufferDumpConfig) (g : Globals)
    (hOk : (FHighResScreenshotConfig.SetResolution P w h scale c g).1 = true) :
    ∃ mx ex my ey,
      F32.mul (F32.ofU32 w) scale = F32.fin false mx ex ∧
      F32.mul (F32.ofU32 h) scale = F32.fin false my ey ∧
      (F32.truncMag mx ex < 2 ^ 32 →
        (FHighResScreenshotConfig.SetResolution P w h scale c g).2.2.GScreenshotResolutionX
          = F32.truncMag mx ex ∧
        (FHighResStandaloneBufferDumpConfig.SetResolution P w h scale d
          g).2.2.GVisualizationDumpResolutionX = F32.truncMag mx ex) ∧
      (F32.truncMag my ey < 2 ^ 32 →
        (FHighResScreenshotConfig.SetResolution P w h scale c g).2.2.GScreenshotResolutionY
          = F32.truncMag my ey ∧
        (FHighResStandaloneBufferDumpConfig.SetResolution P w h scale d
          g).2.2.GVisualizationDumpResolutionY = F32.truncMag my ey) ∧
      (P.Max2DTextureDimension < 2 ^ 24 →
        F32.truncMag mx ex ≤ P.Max2DTextureDimension ∧
        F32.truncMag my ey ≤ P.Max2DTextureDimension) := by
  cases hx : F32.gt (F32.mul (F32.ofU32 w) scale) (F32.ofU32 P.Max2DTextureDimension) with
  | true => simp [FHighResScreenshotConfig.SetResolution, hx] at hOk
  | false =>
    cases hy : F32.gt (F32.mul (F32.ofU32 h) scale) (F32.ofU32 P.Max2DTextureDimension) with
    | true => simp [FHighResScreenshotConfig.SetResolution, hy] at hOk
    | false =>
      have hM := ofU32_finite P.Max2DTextureDimension hMax
      obtain ⟨mx, ex, hpx, hlx⟩ := le_fin_of_accept _ _ (mul_ofU32_cases w scale hScale) hM hx
      obtain ⟨my, ey, hpy, hly⟩ := le_fin_of_accept _ _ (mul_ofU32_cases h scale hScale) hM hy
      refine ⟨mx, ex, my, ey, hpx, hpy, ?_, ?_, ?_⟩
      · intro hfit
        rw [(shot_SetResolution_stored P w h scale c g hx hy).1,
          (dump_SetResolution_stored P w h scale d g hx hy).1]
        unfold scaledU32
        rw [hpx, toU32_of_fits P.undefCvt mx ex hfit]
        exact ⟨rfl, rfl⟩
      · intro hfit
        rw [(shot_SetResolution_stored P w h scale c g hx hy).2,
          (dump_SetResolution_stored P w h scale d g hx hy).2]
        unfold scaledU32
        rw [hpy, toU32_of_fits P.undefCvt my ey hfit]
        exact ⟨rfl, rfl⟩
      · intro h24
        rw [hpx, ofU32_of_lt _ h24] at hlx
        rw [hpy, ofU32_of_lt _ h24] at hly
        exact ⟨truncMag_le_of_le _ _ _ hlx, truncMag_le_of_le _ _ _ hly⟩

/-- C6 fails as stated: with base width 3 and scale 1.5 `SetResolution` succeeds, the
product is 4.5, and the pending width stored by either configuration is 4, which is
strictly less than the product. -/
theorem C6_stored_not_exact :
    inMultiplierRange onePointFive ∧
    F32.isBinary32 onePointFive = true ∧
    (FHighResScreenshotConfig.SetResolution samplePlatform 3 5 onePointFive sampleConfig
      sampleGlobals).1 = true ∧
    F32.mul (F32.ofU32 3) onePointFive = F32.fin false 9 (-1) ∧
    (FHighResScreenshotConfig.SetResolution samplePlatform 3 5 onePointFive sampleConfig
      sampleGlobals).2.2.GScreenshotResolutionX = 4 ∧
    (FHighResStandaloneBufferDumpConfig.SetResolution samplePlatform 3 5 onePointFive
      sampleDumpConfig sampleGlobals).2.2.GVisualizationDumpResolutionX = 4 ∧
    F32.lt (F32.ofU32 4) (F32.mul (F32.ofU32 3) onePointFive) = true := by
  refine ⟨⟨by decide, by decide⟩, ?_⟩
  decide

/-- C6 (amended), at base resolution 3 × 5 with scale 1.5: the products are 4.5 and 7.5
and the pending resolution stored is 4 × 7. -/
theorem C6_SetResolution_stores_truncation_witness :
    ∃ mx ex my ey,
      F32.mul (F32.ofU32 3) onePointFive = F32.fin false mx ex ∧
      F32.mul (F32.ofU32 5) onePointFive = F32.fin false my ey ∧
      (F32.truncMag mx ex < 2 ^ 32 →
        (FHighResScreenshotConfig.SetResolution samplePlatform 3 5 onePointFive sampleConfig
          sampleGlobals).2.2.GScreenshotResolutionX = F32.truncMag mx ex ∧
        (FHighResStandaloneBufferDumpConfig.SetResolution samplePlatform 3 5 onePointFive
          sampleDumpConfig sampleGlobals).2.2.GVisualizationDumpResolutionX
            = F32.truncMag mx ex) ∧
      (F32.truncMag my ey < 2 ^ 32 →
        (FHighResScreenshotConfig.SetResolution samplePlatform 3 5 onePointFive sampleConfig
          sampleGlobals).2.2.GScreenshotResolutionY = F32.truncMag my ey ∧
        (FHighResStandaloneBufferDumpConfig.SetResolution samplePlatform 3 5 onePointFive
          sampleDumpConfig sampleGlobals).2.2.GVisualizationDumpResolutionY
            = F32.truncMag my ey) ∧
      (samplePlatform.Max2DTextureDimension < 2 ^ 24 →
        F32.truncMag mx ex ≤ samplePlatform.Max2DTextureDimension ∧
        F32.truncMag my ey ≤ samplePlatform.Max2DTextureDimension) :=
  C6_SetResolution_stores_truncation samplePlatform 3 5 onePointFive ⟨by decide, by decide⟩
    (by decide) sampleConfig sampleDumpConfig sampleGlobals (by decide)

/-- C7: when `SetResolution` (of either configuration) returns false, the configuration
and the globals are those before the call. -/
theorem C7_SetResolution_failure_atomic (P : Platform) (w h : Nat) (scale : F32)
    (c : FHighResScreenshotConfig) (d : FHighResStandaloneBufferDumpConfig) (g : Globals) :
    ((FHighResScreenshotConfig.SetResolution P w h scale c g).1 = false →
      (FHighResScreenshotConfig.SetResolution P w h scale c g).2 = (c, g)) ∧
    ((FHighResStandaloneBufferDumpConfig.SetResolution P w h scale d g).1 = false →
      (FHighResStandaloneBufferDumpConfig.SetResolution P w h scale d g).2 = (d, g)) := by
  constructor
  · unfold FHighResScreenshotConfig.SetResolution
    simp only
    split
    · intro _; rfl
    · intro hf; exact absurd hf (by simp)
  · unfold FHighResStandaloneBufferDumpConfig.SetResolution
    simp only
    split
    · intro _; rfl
    · intro hf; exact absurd hf (by simp)

/-- C7, at base resolution 16384 × 16384 with scale 1.5 on the sample platform: both
calls fail and leave the configuration and the globals as they were. -/
theorem C7_SetResolution_failure_atomic_witness :
    (FHighResScreenshotConfig.SetResolution samplePlatform 16384 16384 onePointFive
      sampleConfig usedGlobals).1 = false ∧
    (FHighResScreenshotConfig.SetResolution samplePlatform 16384 16384 onePointFive
      sampleConfig usedGlobals).2 = (sampleConfig, usedGlobals) ∧
    (FHighResStandaloneBufferDumpConfig.SetResolution samplePlatform 16384 16384 onePointFive
      sampleDumpConfig usedGlobals).2 = (sampleDumpConfig, usedGlobals) :=
  ⟨by decide,
    (C7_SetResolution_failure_atomic samplePlatform 16384 16384 onePointFive sampleConfig
      sampleDumpConfig usedGlobals).1 (by decide),
    (C7_SetResolution_failure_atomic samplePlatform 16384 16384 onePointFive sampleConfig
      sampleDumpConfig usedGlobals).2 (by decide)⟩

/-! ## ParseConsoleCommand -/

/-- C8 fails on the code: a parsed buffer dump of 1280 × 20000 with multiplier 1.0 on a
platform limited to 16384 is accepted, and `GIsHighResStandaloneBufferDump` is set: the
height test reads `GScreenshotResolutionY`, here 0, instead of the dump height. -/
theorem C8_ParseConsoleCommand_accepts_oversized_height :
    (FHighResStandaloneBufferDumpConfig.ParseConsoleCommand samplePlatform
      (acceptingDumpParser 1280 20000 (.fin false 1 0)) "1280x20000" [] sampleDumpConfig
      sampleGlobals).ret = true ∧
    (FHighResStandaloneBufferDumpConfig.ParseConsoleCommand samplePlatform
      (acceptingDumpParser 1280 20000 (.fin false 1 0)) "1280x20000" [] sampleDumpConfig
      sampleGlobals).g.GIsHighResStandaloneBufferDump = true ∧
    (FHighResStandaloneBufferDumpConfig.ParseConsoleCommand samplePlatform
      (acceptingDumpParser 1280 20000 (.fin false 1 0)) "1280x20000" [] sampleDumpConfig
      sampleGlobals).g.GVisualizationDumpResolutionY = 20000 ∧
    samplePlatform.Max2DTextureDimension < 20000 ∧
    sampleGlobals.GIsHighResStandaloneBufferDump = false := by
  decide

/-- C9: when the parser accepts, the pending resolution stored is the parsed base
resolution times the parsed multiplier, `ParseConsoleCommand` returns true exactly when
neither stored dimension exceeds the maximum texture dimension, `GIsHighResScreenshot` is
true after a true return and keeps its prior value after a false one. -/
theorem C9_ParseConsoleCommand_validation (P : Platform) (parser : ShotParser)
    (InCmd : String) (Ar : FOutputDevice) (c : FHighResScreenshotConfig) (g : Globals)
    (hParse : (parserResult parser InCmd Ar c g).1 = true) :
    (ParseConsoleCommand P parser InCmd Ar c g).g.GScreenshotResolutionX
      = scaledU32 P (parserResult parser InCmd Ar c g).2.2.OutXRes
          (parserResult parser InCmd Ar c g).2.2.OutResMult ∧
    (ParseConsoleCommand P parser InCmd Ar c g).g.GScreenshotResolutionY
      = scaledU32 P (parserResult parser InCmd Ar c g).2.2.OutYRes
          (parserResult parser InCmd Ar c g).2.2.OutResMult ∧
    ((ParseConsoleCommand P parser InCmd Ar c g).ret = true ↔
      ((ParseConsoleCommand P parser InCmd Ar c g).g.GScreenshotResolutionX
          ≤ P.Max2DTextureDimension ∧
       (ParseConsoleCommand P parser InCmd Ar c g).g.GScreenshotResolutionY
          ≤ P.Max2DTextureDimension)) ∧
    ((ParseConsoleCommand P parser InCmd Ar c g).ret = true →
      (ParseConsoleCommand P parser InCmd Ar c g).g.GIsHighResScreenshot = true) ∧
    ((ParseConsoleCommand P parser InCmd Ar c g).ret = false →
      (ParseConsoleCommand P parser InCmd Ar c g).g.GIsHighResScreenshot
        = g.GIsHighResScreenshot) := by
  unfold parserResult at hParse
  unfold ParseConsoleCommand parserResult
  simp only [hParse, if_true]
  split
  · rename_i hbig
    refine ⟨rfl, rfl, ?_, ?_, ?_⟩
    · constructor
      · intro hf; exact absurd hf (by simp)
      · intro hle
        dsimp only at hle hbig
        omega
    · intro hf; exact absurd hf (by simp)
    · intro _; rfl
  · rename_i hsmall
    refine ⟨rfl, rfl, ?_, ?_, ?_⟩
    · constructor
      · intro _
        simp only [gt_iff_lt, not_or, not_lt] at hsmall
        exact hsmall
      · intro _; rfl
    · intro _; rfl
    · intro hf; exact absurd hf (by simp)

/-- C9, for a parsed 1920 × 1080 with multiplier 1.5 on the sample platform: accepted,
with 2880 × 1620 pending and the in-progress flag set. -/
theorem C9_ParseConsoleCommand_validation_witness :
    (ParseConsoleCommand samplePlatform (acceptingShotParser 1920 1080 onePointFive)
      "1920x1080" [] sampleConfig sampleGlobals).g.GScreenshotResolutionX = 2880 ∧
    (ParseConsoleCommand samplePlatform (acceptingShotParser 1920 1080 onePointFive)
      "1920x1080" [] sampleConfig sampleGlobals).g.GScreenshotResolutionY = 1620 ∧
    (ParseConsoleCommand samplePlatform (acceptingShotParser 1920 1080 onePointFive)
      "1920x1080" [] sampleConfig sampleGlobals).ret = true ∧
    (ParseConsoleCommand samplePlatform (acceptingShotParser 1920 1080 onePointFive)
      "1920x1080" [] sampleConfig sampleGlobals).g.GIsHighResScreenshot = true :=
  have h := C9_ParseConsoleCommand_validation samplePlatform
    (acceptingShotParser 1920 1080 onePointFive) "1920x1080" [] sampleConfig sampleGlobals
    (by decide)
  ⟨h.1, h.2.1, h.2.2.1.mpr (by decide), h.2.2.2.1 (h.2.2.1.mpr (by decide))⟩

/-! ## ChangeViewport -/

/-- C10: `ChangeViewport(v)` twice leaves the configuration that `ChangeViewport(v)` once
leaves, for either configuration. -/
theorem C10_ChangeViewport_idempotent (P : Platform) (v : Option ViewportId)
    (c : FHighResScreenshotConfig) (d : FHighResStandaloneBufferDumpConfig) :
    (FHighResScreenshotConfig.ChangeViewport P v
        (FHighResScreenshotConfig.ChangeViewport P v c).1).1
      = (FHighResScreenshotConfig.ChangeViewport P v c).1 ∧
    (FHighResStandaloneBufferDumpConfig.ChangeViewport P v
        (FHighResStandaloneBufferDumpConfig.ChangeViewport P v d).1).1
      = (FHighResStandaloneBufferDumpConfig.ChangeViewport P v d).1 :=
  ⟨rfl, rfl⟩

/-! ## ChangeViewport, defaults and frame -/

/-- C11: after `ChangeViewport(v)` the screenshot configuration has multiplier 1.0,
multiplier scale 0.0, both regions (0,0,0,0), mask, date-naming and buffer-dump flags
false and target `v`; the buffer-dump configuration has multiplier 1.0, scale 0.0, both
regions (0,0,0,0) and target `v`. -/
theorem C11_ChangeViewport_defaults (P : Platform) (v : Option ViewportId)
    (c : FHighResScreenshotConfig) (d : FHighResStandaloneBufferDumpConfig) :
    ((FHighResScreenshotConfig.ChangeViewport P v c).1.ResolutionMultiplier = F32.fin false 1 0 ∧
     (FHighResScreenshotConfig.ChangeViewport P v c).1.ResolutionMultiplierScale
        = F32.fin false 0 0 ∧
     (FHighResScreenshotConfig.ChangeViewport P v c).1.CaptureRegion = ⟨0, 0, 0, 0⟩ ∧
     (FHighResScreenshotConfig.ChangeViewport P v c).1.UnscaledCaptureRegion = ⟨0, 0, 0, 0⟩ ∧
     (FHighResScreenshotConfig.ChangeViewport P v c).1.bMaskEnabled = false ∧
     (FHighResScreenshotConfig.ChangeViewport P v c).1.bDateTimeBasedNaming = false ∧
     (FHighResScreenshotConfig.ChangeViewport P v c).1.bDumpBufferVisualizationTargets = false ∧
     (FHighResScreenshotConfig.ChangeViewport P v c).1.TargetViewport = v) ∧
    ((FHighResStandaloneBufferDumpConfig.ChangeViewport P v d).1.ResolutionMultiplier
        = F32.fin false 1 0 ∧
     (FHighResStandaloneBufferDumpConfig.ChangeViewport P v d).1.ResolutionMultiplierScale
        = F32.fin false 0 0 ∧
     (FHighResStandaloneBufferDumpConfig.ChangeViewport P v d).1.CaptureRegion = ⟨0, 0, 0, 0⟩ ∧
     (FHighResStandaloneBufferDumpConfig.ChangeViewport P v d).1.UnscaledCaptureRegion
        = ⟨0, 0, 0, 0⟩ ∧
     (FHighResStandaloneBufferDumpConfig.ChangeViewport P v d).1.TargetViewport = v) :=
  ⟨⟨rfl, rfl, rfl, rfl, rfl, rfl, rfl, rfl⟩, ⟨rfl, rfl, rfl, rfl, rfl⟩⟩

/-- C19: `ChangeViewport(v)` leaves `bCaptureHDR`, `bForce128BitRendering` and
`FilenameOverride` of the screenshot configuration, and
`bStandaloneDumpBufferVisualizationTargets`, `SelectedMaterialNames` and
`FilenameOverride` of the buffer-dump configuration, as they were, and the globals are
those before the call. -/
theorem C19_ChangeViewport_frame (P : Platform) (v : Option ViewportId)
    (c : FHighResScreenshotConfig) (d : FHighResStandaloneBufferDumpConfig) (g : Globals) :
    ((FHighResScreenshotConfig.ChangeViewport P v c).1.bCaptureHDR = c.bCaptureHDR ∧
     (FHighResScreenshotConfig.ChangeViewport P v c).1.bForce128BitRendering
        = c.bForce128BitRendering ∧
     (FHighResScreenshotConfig.ChangeViewport P v c).1.FilenameOverride = c.FilenameOverride ∧
     ((ShotOp.ChangeViewport v).apply P (c, g)).2 = g) ∧
    ((FHighResStandaloneBufferDumpConfig.ChangeViewport P v
        d).1.bStandaloneDumpBufferVisualizationTargets
        = d.bStandaloneDumpBufferVisualizationTargets ∧
     (FHighResStandaloneBufferDumpConfig.ChangeViewport P v d).1.SelectedMaterialNames
        = d.SelectedMaterialNames ∧
     (FHighResStandaloneBufferDumpConfig.ChangeViewport P v d).1.FilenameOverride
        = d.FilenameOverride ∧
     ((DumpOp.ChangeViewport v).apply P (d, g)).2 = g) :=
  ⟨⟨rfl, rfl, rfl, rfl⟩, ⟨rfl, rfl, rfl, rfl⟩⟩

/-! ## SetResolution, effects -/

/-- C16: when `SetResolution` returns true, the screenshot configuration is the prior one
with both regions (0,0,0,0) and the mask flag false, and the globals are the prior ones
with the pending screenshot resolution written and `GIsHighResScreenshot` true; the
buffer-dump configuration is the prior one with both regions (0,0,0,0), and the globals
are the prior ones with the pending dump resolution written and
`GIsHighResStandaloneBufferDump` true. -/
theorem C16_SetResolution_effects (P : Platform) (w h : Nat) (scale : F32)
    (c : FHighResScreenshotConfig) (d : FHighResStandaloneBufferDumpConfig) (g : Globals) :
    ((FHighResScreenshotConfig.SetResolution P w h scale c g).1 = true →
      (FHighResScreenshotConfig.SetResolution P w h scale c g).2.1 =
        { c with
          UnscaledCaptureRegion := ⟨0, 0, 0, 0⟩
          CaptureRegion := ⟨0, 0, 0, 0⟩
          bMaskEnabled := false } ∧
      (FHighResScreenshotConfig.SetResolution P w h scale c g).2.2 =
        { g with
          GScreenshotResolutionX := scaledU32 P w scale
          GScreenshotResolutionY := scaledU32 P h scale
          GIsHighResScreenshot := true }) ∧
    ((FHighResStandaloneBufferDumpConfig.SetResolution P w h scale d g).1 = true →
      (FHighResStandaloneBufferDumpConfig.SetResolution P w h scale d g).2.1 =
        { d with
          UnscaledCaptureRegion := ⟨0, 0, 0, 0⟩
          CaptureRegion := ⟨0, 0, 0, 0⟩ } ∧
      (FHighResStandaloneBufferDumpConfig.SetResolution P w h scale d g).2.2 =
        { g with
          GVisualizationDumpResolutionX := scaledU32 P w scale
          GVisualizationDumpResolutionY := scaledU32 P h scale
          GIsHighResStandaloneBufferDump := true }) := by
  constructor
  · unfold FHighResScreenshotConfig.SetResolution
    simp only
    split
    · intro hf; exact absurd hf (by simp)
    · intro _; exact ⟨rfl, rfl⟩
  · unfold FHighResStandaloneBufferDumpConfig.SetResolution
    simp only
    split
    · intro hf; exact absurd hf (by simp)
    · intro _; exact ⟨rfl, rfl⟩

/-- C16, at base resolution 1920 × 1080 with scale 1.5 on the sample platform: the
regions and the mask flag are reset, 2880 × 1620 is pending and the flags are set. -/
theorem C16_SetResolution_effects_witness :
    ((FHighResScreenshotConfig.SetResolution samplePlatform 1920 1080 onePointFive sampleConfig
        usedGlobals).2.1 =
        { sampleConfig with
          UnscaledCaptureRegion := ⟨0, 0, 0, 0⟩
          CaptureRegion := ⟨0, 0, 0, 0⟩
          bMaskEnabled := false } ∧
      (FHighResScreenshotConfig.SetResolution samplePlatform 1920 1080 onePointFive sampleConfig
        usedGlobals).2.2 =
        { usedGlobals with
          GScreenshotResolutionX := scaledU32 samplePlatform 1920 onePointFive
          GScreenshotResolutionY := scaledU32 samplePlatform 1080 onePointFive
          GIsHighResScreenshot := true }) ∧
    ((FHighResStandaloneBufferDumpConfig.SetResolution samplePlatform 1920 1080 onePointFive
        sampleDumpConfig usedGlobals).2.1 =
        { sampleDumpConfig with
          UnscaledCaptureRegion := ⟨0, 0, 0, 0⟩
          CaptureRegion := ⟨0, 0, 0, 0⟩ } ∧
      (FHighResStandaloneBufferDumpConfig.SetResolution samplePlatform 1920 1080 onePointFive
        sampleDumpConfig usedGlobals).2.2 =
        { usedGlobals with
          GVisualizationDumpResolutionX := scaledU32 samplePlatform 1920 onePointFive
          GVisualizationDumpResolutionY := scaledU32 samplePlatform 1080 onePointFive
          GIsHighResStandaloneBufferDump := true }) :=
  ⟨(C16_SetResolution_effects samplePlatform 1920 1080 onePointFive sampleConfig
      sampleDumpConfig usedGlobals).1 (by decide),
   (C16_SetResolution_effects samplePlatform 1920 1080 onePointFive sampleConfig
      sampleDumpConfig usedGlobals).2 (by decide)⟩

/-! ## The buffer-dump task parameters -/

/-- C20: the buffer-dump `PopulateImageTaskParams` sets the format to PNG and the
compression quality to Default, whatever the configuration and the incoming task; it
reads neither console variable. -/
theorem C20_dump_PopulateImageTaskParams (d : FHighResStandaloneBufferDumpConfig)
    (InOutTask : FImageWriteTask) :
    (FHighResStandaloneBufferDumpConfig.PopulateImageTaskParams d InOutTask).Format
      = EImageFormat.PNG ∧
    (FHighResStandaloneBufferDumpConfig.PopulateImageTaskParams d InOutTask).CompressionQuality
      = EImageCompressionQuality.Default.toInt32 :=
  ⟨rfl, rfl⟩
/-! ## MergeMaskIntoAlpha, frame -/

theorem maskedAt_keeps (f : FColor → Nat) (hf : ∀ (c : FColor) (a : Nat), f { c with A := a } = f c)
    (mask bm : List FColor) (i : Nat) :
    (maskedAt mask bm i).map f = (bm[i]?).map f := by
  unfold maskedAt
  split
  · rename_i c m hc hm
    simp [hc, hf]
  · rfl

theorem foldl_maskStep_keeps (f : FColor → Nat)
    (hf : ∀ (c : FColor) (a : Nat), f { c with A := a } = f c)
    (mask bm : List FColor) (n : Nat) :
    ((List.range n).foldl (maskStep mask) bm).map f = bm.map f := by
  apply List.ext_getElem?
  intro i
  simp only [List.getElem?_map]
  rw [(foldl_maskStep mask n bm).2 i]
  split
  · exact maskedAt_keeps f hf mask bm i
  · rfl

theorem map_alpha_keeps (f : FColor → Nat)
    (hf : ∀ (c : FColor) (a : Nat), f { c with A := a } = f c) (bm : List FColor) :
    (bm.map (fun Color : FColor => { Color with A := 255 })).map f = bm.map f := by
  rw [List.map_map]
  apply List.map_congr_left
  intro c _
  exact hf c 255

theorem MergeMaskIntoAlpha_keeps (f : FColor → Nat)
    (hf : ∀ (c : FColor) (a : Nat), f { c with A := a } = f c)
    (c : FHighResScreenshotConfig) (MaskArray InBitmap : List FColor) :
    (MergeMaskIntoAlpha c MaskArray InBitmap).InBitmap.map f = InBitmap.map f := by
  unfold MergeMaskIntoAlpha
  simp only
  split
  · exact foldl_maskStep_keeps f hf MaskArray InBitmap InBitmap.length
  · exact map_alpha_keeps f hf InBitmap

/-- C18: whatever the bitmap, the mask and the mask flag, `MergeMaskIntoAlpha` leaves a
bitmap of the same length whose red, green and blue channels are those of the input. -/
theorem C18_MergeMaskIntoAlpha_only_alpha (c : FHighResScreenshotConfig)
    (MaskArray InBitmap : List FColor) :
    (MergeMaskIntoAlpha c MaskArray InBitmap).InBitmap.length = InBitmap.length ∧
    (MergeMaskIntoAlpha c MaskArray InBitmap).InBitmap.map FColor.R = InBitmap.map FColor.R ∧
    (MergeMaskIntoAlpha c MaskArray InBitmap).InBitmap.map FColor.G = InBitmap.map FColor.G ∧
    (MergeMaskIntoAlpha c MaskArray InBitmap).InBitmap.map FColor.B = InBitmap.map FColor.B := by
  have hR := MergeMaskIntoAlpha_keeps FColor.R (fun _ _ => rfl) c MaskArray InBitmap
  refine ⟨?_, hR, MergeMaskIntoAlpha_keeps FColor.G (fun _ _ => rfl) c MaskArray InBitmap,
    MergeMaskIntoAlpha_keeps FColor.B (fun _ _ => rfl) c MaskArray InBitmap⟩
  have h := congrArg List.length hR
  simpa using h

/-! ## Selected material names -/

theorem foldl_append_start (l : List String) :
    ∀ a : String, l.foldl (fun r s => r ++ s) a = a ++ l.foldl (fun r s => r ++ s) "" := by
  induction l with
  | nil => intro a; simp
  | cons x xs ih =>
    intro a
    simp only [List.foldl_cons]
    rw [ih (a ++ x), ih ("" ++ x)]
    simp [String.append_assoc]

theorem join_cons (x : String) (xs : List String) :
    String.join (x :: xs) = x ++ String.join xs := by
  unfold String.join
  simp only [List.foldl_cons]
  rw [foldl_append_start xs ("" ++ x)]
  simp

theorem foldl_AddSelectedMaterialName (names : List String) :
    ∀ d : FHighResStandaloneBufferDumpConfig,
      (names.foldl (fun c n => FHighResStandaloneBufferDumpConfig.AddSelectedMaterialName n c)
        d).SelectedMaterialNames
      = d.SelectedMaterialNames ++ String.join (names.map (fun n => n ++ ",")) := by
  induction names with
  | nil => intro d; simp [String.join]
  | cons n ns ih =>
    intro d
    simp only [List.foldl_cons, List.map_cons]
    rw [ih, join_cons]
    simp [FHighResStandaloneBufferDumpConfig.AddSelectedMaterialName, String.append_assoc]

/-- C17: after `ClearSelectedMaterials` and then `AddSelectedMaterialName` of `n1 … nk` in
order, `GetSelectedMaterialNames` returns `n1 ++ "," ++ … ++ nk ++ ","`; and right after
`ClearSelectedMaterials` it returns the empty string. -/
theorem C17_SelectedMaterialNames (names : List String)
    (d : FHighResStandaloneBufferDumpConfig) :
    FHighResStandaloneBufferDumpConfig.GetSelectedMaterialNames
      (names.foldl (fun c n => FHighResStandaloneBufferDumpConfig.AddSelectedMaterialName n c)
        (FHighResStandaloneBufferDumpConfig.ClearSelectedMaterials d))
      = String.join (names.map (fun n => n ++ ",")) ∧
    FHighResStandaloneBufferDumpConfig.GetSelectedMaterialNames
      (FHighResStandaloneBufferDumpConfig.ClearSelectedMaterials d) = "" := by
  refine ⟨?_, rfl⟩
  unfold FHighResStandaloneBufferDumpConfig.GetSelectedMaterialNames
  rw [foldl_AddSelectedMaterialName]
  simp [FHighResStandaloneBufferDumpConfig.ClearSelectedMaterials]

theorem SelectedMaterialNames_example :
    FHighResStandaloneBufferDumpConfig.GetSelectedMaterialNames
      (["M_Base", "M_Glass"].foldl
        (fun c n => FHighResStandaloneBufferDumpConfig.AddSelectedMaterialName n c)
        (FHighResStandaloneBufferDumpConfig.ClearSelectedMaterials sampleDumpConfig))
      = "M_Base,M_Glass," := by
  decide
/-! ## ParseConsoleCommand, failure paths -/

theorem shot_writeBack_refsOf (c : FHighResScreenshotConfig) (g : Globals) :
    FHighResScreenshotConfig.writeBack (FHighResScreenshotConfig.refsOf c g) c g = (c, g) := rfl

theorem dump_writeBack_refsOf (d : FHighResStandaloneBufferDumpConfig) (g : Globals) :
    FHighResStandaloneBufferDumpConfig.writeBack
      (FHighResStandaloneBufferDumpConfig.refsOf d g) d g = (d, g) := rfl

/-- C12 fails as stated: with a parser that reports failure and writes nothing, the
screenshot call returns false but leaves pending resolution 0 × 0 where 1920 × 1080 was
pending, and multiplier 1.0 and scale 0.0 where 3.0 and 1.0 were stored; the buffer-dump
call does the same to its globals and fields. -/
theorem C12_parse_failure_resets :
    (parserResult rejectingShotParser "bad" [] sampleConfig usedGlobals).1 = false ∧
    (parserResult rejectingShotParser "bad" [] sampleConfig usedGlobals).2.2
      = FHighResScreenshotConfig.refsOf
          (FHighResScreenshotConfig.entryReset sampleConfig usedGlobals).1
          (FHighResScreenshotConfig.entryReset sampleConfig usedGlobals).2 ∧
    (ParseConsoleCommand samplePlatform rejectingShotParser "bad" [] sampleConfig
      usedGlobals).ret = false ∧
    usedGlobals.GScreenshotResolutionX = 1920 ∧
    (ParseConsoleCommand samplePlatform rejectingShotParser "bad" [] sampleConfig
      usedGlobals).g.GScreenshotResolutionX = 0 ∧
    sampleConfig.ResolutionMultiplier = F32.fin false 3 0 ∧
    (ParseConsoleCommand samplePlatform rejectingShotParser "bad" [] sampleConfig
      usedGlobals).cfg.ResolutionMultiplier = F32.fin false 1 0 ∧
    sampleConfig.ResolutionMultiplierScale = F32.fin false 1 0 ∧
    (ParseConsoleCommand samplePlatform rejectingShotParser "bad" [] sampleConfig
      usedGlobals).cfg.ResolutionMultiplierScale = F32.fin false 0 0 ∧
    usedGlobals.GVisualizationDumpResolutionX = 1280 ∧
    (FHighResStandaloneBufferDumpConfig.ParseConsoleCommand samplePlatform rejectingDumpParser
      "bad" [] sampleDumpConfig usedGlobals).g.GVisualizationDumpResolutionX = 0 ∧
    (FHighResStandaloneBufferDumpConfig.ParseConsoleCommand samplePlatform rejectingDumpParser
      "bad" [] sampleDumpConfig usedGlobals).cfg.ResolutionMultiplier = F32.fin false 1 0 := by
  decide

/-- C12 (amended): when the parser reports failure and writes nothing, the call returns
false and the configuration and the globals are the prior ones except for what the call
reset at entry: the pending resolution is 0 × 0, the multiplier 1.0 and the multiplier
scale 0.0; this for either configuration. -/
theorem C12_parse_failure_keeps_all_but_entry_reset (P : Platform)
    (parser : ShotParser) (dumpParser : DumpParser) (InCmd : String) (Ar : FOutputDevice)
    (c : FHighResScreenshotConfig) (d : FHighResStandaloneBufferDumpConfig) (g : Globals)
    (hFail : (parserResult parser InCmd Ar c g).1 = false)
    (hNoWrite : (parserResult parser InCmd Ar c g).2.2
      = FHighResScreenshotConfig.refsOf (FHighResScreenshotConfig.entryReset c g).1
          (FHighResScreenshotConfig.entryReset c g).2)
    (hDumpFail : (dumpParserResult dumpParser InCmd Ar d g).1 = false)
    (hDumpNoWrite : (dumpParserResult dumpParser InCmd Ar d g).2.2
      = FHighResStandaloneBufferDumpConfig.refsOf
          (FHighResStandaloneBufferDumpConfig.entryReset d g).1
          (FHighResStandaloneBufferDumpConfig.entryReset d g).2) :
    ((ParseConsoleCommand P parser InCmd Ar c g).ret = false ∧
     (ParseConsoleCommand P parser InCmd Ar c g).cfg =
        { c with
          ResolutionMultiplier := F32.fin false 1 0
          ResolutionMultiplierScale := F32.fin false 0 0 } ∧
     (ParseConsoleCommand P parser InCmd Ar c g).g =
        { g with GScreenshotResolutionX := 0, GScreenshotResolutionY := 0 }) ∧
    ((FHighResStandaloneBufferDumpConfig.ParseConsoleCommand P dumpParser InCmd Ar d g).ret
        = false ∧
     (FHighResStandaloneBufferDumpConfig.ParseConsoleCommand P dumpParser InCmd Ar d g).cfg =
        { d with
          ResolutionMultiplier := F32.fin false 1 0
          ResolutionMultiplierScale := F32.fin false 0 0 } ∧
     (FHighResStandaloneBufferDumpConfig.ParseConsoleCommand P dumpParser InCmd Ar d g).g =
        { g with GVisualizationDumpResolutionX := 0, GVisualizationDumpResolutionY := 0 }) := by
  unfold parserResult at hFail hNoWrite
  unfold dumpParserResult at hDumpFail hDumpNoWrite
  constructor
  · unfold ParseConsoleCommand
    simp only [hFail, hNoWrite, shot_writeBack_refsOf]
    exact ⟨rfl, rfl, rfl⟩
  · unfold FHighResStandaloneBufferDumpConfig.ParseConsoleCommand
    simp only [hDumpFail, hDumpNoWrite, dump_writeBack_refsOf]
    exact ⟨rfl, rfl, rfl⟩

/-- C12 (amended), for the configurations and globals of an earlier capture: only the
pending resolution, the multiplier and the multiplier scale change. -/
theorem C12_parse_failure_keeps_all_but_entry_reset_witness :
    ((ParseConsoleCommand samplePlatform rejectingShotParser "bad" [] sampleConfig
        usedGlobals).ret = false ∧
     (ParseConsoleCommand samplePlatform rejectingShotParser "bad" [] sampleConfig
        usedGlobals).cfg =
        { sampleConfig with
          ResolutionMultiplier := F32.fin false 1 0
          ResolutionMultiplierScale := F32.fin false 0 0 } ∧
     (ParseConsoleCommand samplePlatform rejectingShotParser "bad" [] sampleConfig
        usedGlobals).g =
        { usedGlobals with GScreenshotResolutionX := 0, GScreenshotResolutionY := 0 }) ∧
    ((FHighResStandaloneBufferDumpConfig.ParseConsoleCommand samplePlatform rejectingDumpParser
        "bad" [] sampleDumpConfig usedGlobals).ret = false ∧
     (FHighResStandaloneBufferDumpConfig.ParseConsoleCommand samplePlatform rejectingDumpParser
        "bad" [] sampleDumpConfig usedGlobals).cfg =
        { sampleDumpConfig with
          ResolutionMultiplier := F32.fin false 1 0
          ResolutionMultiplierScale := F32.fin false 0 0 } ∧
     (FHighResStandaloneBufferDumpConfig.ParseConsoleCommand samplePlatform rejectingDumpParser
        "bad" [] sampleDumpConfig usedGlobals).g =
        { usedGlobals with
          GVisualizationDumpResolutionX := 0, GVisualizationDumpResolutionY := 0 }) :=
  C12_parse_failure_keeps_all_but_entry_reset samplePlatform rejectingShotParser
    rejectingDumpParser "bad" [] sampleConfig sampleDumpConfig usedGlobals
    (by decide) (by decide) (by decide) (by decide)

/-- C13 fails as stated: a successful parse of 20000 × 1080 with multiplier 2.0 on a
platform limited to 16384 is rejected, and afterwards the pending resolution is
40000 × 2160, not 0 × 0, and the capture region, mask flag, buffer-dump flag, HDR flag,
filename and date-naming flag are those the parser left, not the prior ones. -/
theorem C13_validation_failure_keeps_parsed_state :
    (parserResult (writingShotParser true oversizedParse) "20000x1080" [] sampleConfig
      usedGlobals).1 = true ∧
    (ParseConsoleCommand samplePlatform (writingShotParser true oversizedParse) "20000x1080" []
      sampleConfig usedGlobals).ret = false ∧
    (ParseConsoleCommand samplePlatform (writingShotParser true oversizedParse) "20000x1080" []
      sampleConfig usedGlobals).g.GScreenshotResolutionX = 40000 ∧
    (ParseConsoleCommand samplePlatform (writingShotParser true oversizedParse) "20000x1080" []
      sampleConfig usedGlobals).g.GScreenshotResolutionY = 2160 ∧
    sampleConfig.CaptureRegion = ⟨5, 6, 7, 8⟩ ∧
    (ParseConsoleCommand samplePlatform (writingShotParser true oversizedParse) "20000x1080" []
      sampleConfig usedGlobals).cfg.CaptureRegion = ⟨10, 20, 30, 40⟩ ∧
    sampleConfig.bMaskEnabled = true ∧
    (ParseConsoleCommand samplePlatform (writingShotParser true oversizedParse) "20000x1080" []
      sampleConfig usedGlobals).cfg.bMaskEnabled = false ∧
    sampleConfig.bDumpBufferVisualizationTargets = true ∧
    (ParseConsoleCommand samplePlatform (writingShotParser true oversizedParse) "20000x1080" []
      sampleConfig usedGlobals).cfg.bDumpBufferVisualizationTargets = false ∧
    sampleConfig.bCaptureHDR = true ∧
    (ParseConsoleCommand samplePlatform (writingShotParser true oversizedParse) "20000x1080" []
      sampleConfig usedGlobals).cfg.bCaptureHDR = false ∧
    sampleConfig.FilenameOverride = "shot" ∧
    (ParseConsoleCommand samplePlatform (writingShotParser true oversizedParse) "20000x1080" []
      sampleConfig usedGlobals).cfg.FilenameOverride = "other" ∧
    sampleConfig.bDateTimeBasedNaming = true ∧
    (ParseConsoleCommand samplePlatform (writingShotParser true oversizedParse) "20000x1080" []
      sampleConfig usedGlobals).cfg.bDateTimeBasedNaming = false := by
  decide

/-- C13 (amended): when the parser accepts and a multiplied dimension exceeds the maximum
texture dimension, the call returns false and appends the size error; the multiplier
scale is 0.0; the pending resolution is the multiplied one; the multiplier, capture
region, mask flag, buffer-dump flag, HDR flag, filename and date-naming flag are those
the parser left; everything else, the in-progress flag included, is as before. -/
theorem C13_validation_failure_state (P : Platform) (parser : ShotParser) (InCmd : String)
    (Ar : FOutputDevice) (c : FHighResScreenshotConfig) (g : Globals)
    (hParse : (parserResult parser InCmd Ar c g).1 = true)
    (hBig : scaledU32 P (parserResult parser InCmd Ar c g).2.2.OutXRes
          (parserResult parser InCmd Ar c g).2.2.OutResMult > P.Max2DTextureDimension ∨
        scaledU32 P (parserResult parser InCmd Ar c g).2.2.OutYRes
          (parserResult parser InCmd Ar c g).2.2.OutResMult > P.Max2DTextureDimension) :
    (ParseConsoleCommand P parser InCmd Ar c g).ret = false ∧
    (ParseConsoleCommand P parser InCmd Ar c g).cfg =
      { c with
        ResolutionMultiplierScale := F32.fin false 0 0
        ResolutionMultiplier := (parserResult parser InCmd Ar c g).2.2.OutResMult
        CaptureRegion := (parserResult parser InCmd Ar c g).2.2.OutCaptureRegion
        bMaskEnabled := (parserResult parser InCmd Ar c g).2.2.OutShouldEnableMask
        bDumpBufferVisualizationTargets :=
          (parserResult parser InCmd Ar c g).2.2.OutDumpBufferVisualizationTargets
        bCaptureHDR := (parserResult parser InCmd Ar c g).2.2.OutCaptureHDR
        FilenameOverride := (parserResult parser InCmd Ar c g).2.2.OutFilenameOverride
        bDateTimeBasedNaming := (parserResult parser InCmd Ar c g).2.2.OutUseDateTimeAsFileName } ∧
    (ParseConsoleCommand P parser InCmd Ar c g).g =
      { g with
        GScreenshotResolutionX := scaledU32 P (parserResult parser InCmd Ar c g).2.2.OutXRes
          (parserResult parser InCmd Ar c g).2.2.OutResMult
        GScreenshotResolutionY := scaledU32 P (parserResult parser InCmd Ar c g).2.2.OutYRes
          (parserResult parser InCmd Ar c g).2.2.OutResMult } ∧
    (ParseConsoleCommand P parser InCmd Ar c g).Ar =
      (parserResult parser InCmd Ar c g).2.1 ++
        [FHighResScreenshotConfig.sizeError "Screenshot" P.Max2DTextureDimension] := by
  unfold parserResult at hParse hBig
  unfold ParseConsoleCommand parserResult
  simp only [hParse, if_true]
  rw [if_pos (by exact hBig)]
  exact ⟨rfl, rfl, rfl, rfl⟩

/-- C13 (amended), for the oversized parse on the sample platform. -/
theorem C13_validation_failure_state_witness :
    (ParseConsoleCommand samplePlatform (writingShotParser true oversizedParse) "20000x1080" []
      sampleConfig usedGlobals).ret = false ∧
    (ParseConsoleCommand samplePlatform (writingShotParser true oversizedParse) "20000x1080" []
      sampleConfig usedGlobals).cfg.ResolutionMultiplierScale = F32.fin false 0 0 ∧
    (ParseConsoleCommand samplePlatform (writingShotParser true oversizedParse) "20000x1080" []
      sampleConfig usedGlobals).g.GIsHighResScreenshot = usedGlobals.GIsHighResScreenshot ∧
    (ParseConsoleCommand samplePlatform (writingShotParser true oversizedParse) "20000x1080" []
      sampleConfig usedGlobals).Ar =
      ["Error: Screenshot size exceeds the maximum allowed texture size (16384 x 16384)"] :=
  have h := C13_validation_failure_state samplePlatform (writingShotParser true oversizedParse)
    "20000x1080" [] sampleConfig usedGlobals (by decide) (Or.inl (by decide))
  ⟨h.1, by rw [h.2.1], by rw [h.2.2.1], by rw [h.2.2.2]; decide⟩
/-! ## The multiplier range -/

theorem inMultiplierRange_min :
    inMultiplierRange FHighResScreenshotConfig.MinResolutionMultipler :=
  ⟨by decide, by decide⟩

theorem ShotOp.apply_keeps_range (P : Platform) (op : ShotOp)
    (s : FHighResScreenshotConfig × Globals)
    (hs : inMultiplierRange s.1.ResolutionMultiplier)
    (hop : parsersKeepRange [op]) :
    inMultiplierRange (op.apply P s).1.ResolutionMultiplier := by
  cases op with
  | ChangeViewport v => exact inMultiplierRange_min
  | SetResolution w h k =>
    simp only [ShotOp.apply, FHighResScreenshotConfig.SetResolution]
    split
    · exact hs
    · exact hs
  | SetFilename f => exact hs
  | SetMaskEnabled b => exact hs
  | SetHDRCapture b => exact hs
  | SetForce128BitRendering b => exact hs
  | ParseConsoleCommand parser InCmd Ar =>
    have hk : keepsMultiplierInRange parser := hop.1
    have hout := hk InCmd Ar
      (FHighResScreenshotConfig.refsOf (FHighResScreenshotConfig.entryReset s.1 s.2).1
        (FHighResScreenshotConfig.entryReset s.1 s.2).2) inMultiplierRange_min
    simp only [ShotOp.apply, FHighResScreenshotConfig.ParseConsoleCommand]
    split
    · split
      · exact hout
      · exact hout
    · exact hout

theorem parsersKeepRange_cons (op : ShotOp) (ops : List ShotOp)
    (h : parsersKeepRange (op :: ops)) : parsersKeepRange [op] ∧ parsersKeepRange ops := by
  cases op <;> first
    | exact ⟨trivial, h⟩
    | exact ⟨⟨h.1, trivial⟩, h.2⟩

theorem runShotOps_keeps_range (P : Platform) (ops : List ShotOp) :
    ∀ s : FHighResScreenshotConfig × Globals,
      inMultiplierRange s.1.ResolutionMultiplier → parsersKeepRange ops →
      inMultiplierRange (runShotOps P ops s).1.ResolutionMultiplier := by
  induction ops with
  | nil => intro s hs _; exact hs
  | cons op ops ih =>
    intro s hs hops
    have h := parsersKeepRange_cons op ops hops
    exact ih (op.apply P s) (ShotOp.apply_keeps_range P op s hs h.1) h.2

/-- C14 fails as stated: from a freshly constructed configuration, one
`ParseConsoleCommand` whose parser accepts 100 × 100 with multiplier 20.0 succeeds and
leaves `ResolutionMultiplier = 20.0`, above `MaxResolutionMultipler`. -/
theorem C14_multiplier_leaves_range :
    (ParseConsoleCommand samplePlatform (acceptingShotParser 100 100 twenty) "100x100" []
      (FHighResScreenshotConfig.construct samplePlatform rawConfig) sampleGlobals).ret = true ∧
    (runShotOps samplePlatform
      [ShotOp.ParseConsoleCommand (acceptingShotParser 100 100 twenty) "100x100" []]
      (FHighResScreenshotConfig.construct samplePlatform rawConfig,
        sampleGlobals)).1.ResolutionMultiplier = twenty ∧
    F32.isBinary32 twenty = true ∧
    F32.lt FHighResScreenshotConfig.MaxResolutionMultipler twenty = true ∧
    ¬ inMultiplierRange (runShotOps samplePlatform
      [ShotOp.ParseConsoleCommand (acceptingShotParser 100 100 twenty) "100x100" []]
      (FHighResScreenshotConfig.construct samplePlatform rawConfig,
        sampleGlobals)).1.ResolutionMultiplier := by
  refine ⟨by decide, by decide, by decide, by decide, ?_⟩
  intro h
  exact absurd h.2 (by decide)

/-- C14 (amended): in every state reached from construction by a sequence of
`ChangeViewport`, `SetResolution`, `SetFilename`, `SetMaskEnabled`, `SetHDRCapture`,
`SetForce128BitRendering` and `ParseConsoleCommand` calls, `ResolutionMultiplier` lies
within `[1.0, 10.0]`, provided no parser of those calls turns a multiplier within the
range into one outside it. -/
theorem C14_multiplier_in_range (P : Platform) (raw : FHighResScreenshotConfig)
    (g : Globals) (ops : List ShotOp) (hParsers : parsersKeepRange ops) :
    inMultiplierRange (runShotOps P ops
      (FHighResScreenshotConfig.construct P raw, g)).1.ResolutionMultiplier :=
  runShotOps_keeps_range P ops (FHighResScreenshotConfig.construct P raw, g)
    inMultiplierRange_min hParsers

/-- C14 (amended), for a sequence that uses every call, with a parser returning
multiplier 1.5: the multiplier ends within the range. -/
theorem C14_multiplier_in_range_witness :
    inMultiplierRange (runShotOps samplePlatform
      [ShotOp.SetFilename "a", ShotOp.SetMaskEnabled true, ShotOp.SetHDRCapture true,
        ShotOp.SetForce128BitRendering true, ShotOp.SetResolution 1920 1080 onePointFive,
        ShotOp.ChangeViewport (some 3),
        ShotOp.ParseConsoleCommand (acceptingShotParser 1920 1080 onePointFive) "1920x1080" []]
      (FHighResScreenshotConfig.construct samplePlatform rawConfig,
        sampleGlobals)).1.ResolutionMultiplier :=
  C14_multiplier_in_range samplePlatform rawConfig sampleGlobals _
    ⟨fun _ _ _ _ => (show inMultiplierRange onePointFive from ⟨by decide, by decide⟩), trivial⟩

/-! ## SetResolution against ParseConsoleCommand -/

/-- Why the amended C15 bounds the limit: with the limit 16777219, which converts to the
float 16777220, `SetResolution(16777220, 1, 1.0)` returns true and stores 16777220, while
`ParseConsoleCommand` on the same request compares the integer and returns false. -/
theorem SetResolution_accepts_above_large_limit :
    (FHighResScreenshotConfig.SetResolution largeLimitPlatform 16777220 1 (.fin false 1 0)
      sampleConfig sampleGlobals).1 = true ∧
    (FHighResScreenshotConfig.SetResolution largeLimitPlatform 16777220 1 (.fin false 1 0)
      sampleConfig sampleGlobals).2.2.GScreenshotResolutionX = 16777220 ∧
    (ParseConsoleCommand largeLimitPlatform (acceptingShotParser 16777220 1 (.fin false 1 0))
      "16777220x1" [] sampleConfig sampleGlobals).ret = false := by
  decide

theorem bitLenAux_zero (fuel : Nat) : bitLenAux fuel 0 = 0 := by
  cases fuel <;> simp [bitLenAux]

theorem pow_bitLenAux_le (fuel : Nat) :
    ∀ n : Nat, n ≤ fuel → 0 < n → 2 ^ bitLenAux fuel n ≤ 2 * n := by
  induction fuel with
  | zero => intro n h0 hpos; omega
  | succ fuel ih =>
    intro n hle hpos
    unfold bitLenAux
    rw [if_neg (by omega)]
    rw [Nat.pow_succ]
    by_cases h2 : n / 2 = 0
    · rw [h2, bitLenAux_zero]
      simp only [pow_zero]
      omega
    · have := ih (n / 2) (by omega) (by omega)
      omega

theorem pow_bitLen_le (n : Nat) (hn : 0 < n) : 2 ^ bitLen n ≤ 2 * n :=
  pow_bitLenAux_le n n (Nat.le_refl n) hn

theorem bitLen_zero : bitLen 0 = 0 := bitLenAux_zero 0

theorem roundNearestEven_zero (n : Nat) : F32.roundNearestEven n 0 = n := by
  simp [F32.roundNearestEven, Nat.mod_one]

theorem roundNearestEven_le_of_le (n s K : Nat) (h : n ≤ K * 2 ^ s) :
    F32.roundNearestEven n s ≤ K := by
  unfold F32.roundNearestEven
  have hP : 0 < 2 ^ s := Nat.pow_pos (by decide)
  have hdm := Nat.div_add_mod n (2 ^ s)
  have hr := Nat.mod_lt n hP
  have hq : n / 2 ^ s ≤ K := Nat.div_le_of_le_mul (by rw [Nat.mul_comm]; exact h)
  simp only
  split
  · rename_i hup
    by_contra hcon
    have hqK : n / 2 ^ s = K := by omega
    rw [hqK, Nat.mul_comm] at hdm
    omega
  · exact hq

theorem roundNearestEven_upper (n s : Nat) :
    2 * n ≤ (2 * F32.roundNearestEven n s + 1) * 2 ^ s := by
  unfold F32.roundNearestEven
  have hP : 0 < 2 ^ s := Nat.pow_pos (by decide)
  have hdm := Nat.div_add_mod n (2 ^ s)
  have hr := Nat.mod_lt n hP
  simp only
  split
  · rename_i hup
    have : (2 * (n / 2 ^ s + 1) + 1) * 2 ^ s
        = 2 * (2 ^ s * (n / 2 ^ s)) + 3 * 2 ^ s := by ring
    omega
  · rename_i hup
    have : (2 * (n / 2 ^ s) + 1) * 2 ^ s = 2 * (2 ^ s * (n / 2 ^ s)) + 2 ^ s := by ring
    omega

theorem roundNearestEven_ge (n s : Nat) : n / 2 ^ s ≤ F32.roundNearestEven n s := by
  unfold F32.roundNearestEven
  simp only
  split <;> omega

theorem F32.le_fin_fin (a : Nat) (ea : Int) (b : Nat) (eb : Int) :
    F32.le (F32.fin false a ea) (F32.fin false b eb) = true ↔
      a * 2 ^ (ea - eb).toNat ≤ b * 2 ^ (eb - ea).toNat := by
  simp [F32.le, F32.lt, F32.magLt]

theorem F32.le_fin_fin_value (a : Nat) (ea : Int) (b : Nat) (eb : Int) :
    F32.le (F32.fin false a ea) (F32.fin false b eb) = true ↔
      F32.magValue a ea ≤ F32.magValue b eb := by
  have h := F32.magLt_iff b eb a ea
  simp only [F32.le, F32.lt, Bool.not_eq_true']
  rw [← not_lt, ← h]
  cases F32.magLt b eb a ea <;> simp
theorem shift_pos_cases (n : Nat) (e : Int) (s : Nat)
    (hs : s = max (bitLen n - 24) ((-149 - e).toNat)) (hpos : 0 < s) (he : 0 < e + s) :
    0 < n ∧ 2 ^ (s + 24) ≤ 2 * n := by
  have hbl : bitLen n = s + 24 := by omega
  have hn : 0 < n := by
    rcases Nat.eq_zero_or_pos n with h0 | h0
    · rw [h0, bitLen_zero] at hbl
      omega
    · exact h0
  refine ⟨hn, ?_⟩
  rw [← hbl]
  exact pow_bitLen_le n hn

theorem round_core_le (n : Nat) (e : Int) (K s : Nat)
    (hs : s = max (bitLen n - 24) ((-149 - e).toNat)) (hK : K < 2 ^ 24)
    (H : n * 2 ^ e.toNat ≤ K * 2 ^ (-e).toNat) :
    ¬ (F32.roundNearestEven n s ≠ 0 ∧
        (bitLen (F32.roundNearestEven n s) : Int) + (e + (s : Int)) > 128) ∧
    F32.roundNearestEven n s * 2 ^ (e + (s : Int)).toNat
      ≤ K * 2 ^ (-(e + (s : Int))).toNat := by
  by_cases hes : e + (s : Int) ≤ 0
  · -- the quantum is at most one
    have h1 : e.toNat = 0 := by omega
    have h2 : (e + (s : Int)).toNat = 0 := by omega
    have h3 : (-(e + (s : Int))).toNat = (-e).toNat - s := by omega
    have hsa : s ≤ (-e).toNat := by omega
    rw [h1] at H
    rw [h2, h3]
    have hpow : 2 ^ (-e).toNat = 2 ^ ((-e).toNat - s) * 2 ^ s := by
      rw [← Nat.pow_add, Nat.sub_add_cancel hsa]
    have hn : n ≤ (K * 2 ^ ((-e).toNat - s)) * 2 ^ s := by
      rw [Nat.mul_assoc, ← hpow]
      simpa using H
    have hm := roundNearestEven_le_of_le n s _ hn
    refine ⟨?_, by simpa using hm⟩
    have hmlt : F32.roundNearestEven n s < 2 ^ (24 + ((-e).toNat - s)) := by
      rw [Nat.pow_add]
      exact Nat.lt_of_le_of_lt hm (Nat.mul_lt_mul_of_pos_right hK (Nat.pow_pos (by decide)))
    have hb : bitLen (F32.roundNearestEven n s) ≤ 24 + ((-e).toNat - s) :=
      bitLenAux_le _ _ _ hmlt
    intro hc
    have := hc.2
    omega
  · have hes1 : 0 < e + (s : Int) := by omega
    rcases Nat.eq_zero_or_pos s with hs0 | hspos
    · -- no bit is dropped
      subst hs0
      rw [roundNearestEven_zero]
      have h2 : (-e).toNat = 0 := by omega
      have h3 : e + ((0 : Nat) : Int) = e := by simp
      rw [h3]
      refine ⟨?_, H⟩
      rw [h2] at H
      simp only [pow_zero, mul_one] at H
      intro hc
      have hn0 : 0 < n := Nat.pos_of_ne_zero hc.1
      have hp : 0 < 2 ^ e.toNat := Nat.pow_pos (by decide)
      have h4 : 2 ^ e.toNat ≤ n * 2 ^ e.toNat := Nat.le_mul_of_pos_left _ hn0
      have h5 : n ≤ n * 2 ^ e.toNat := Nat.le_mul_of_pos_right _ hp
      have h6 : e.toNat < 24 := by
        by_contra hge
        have : 2 ^ 24 ≤ 2 ^ e.toNat := Nat.pow_le_pow_right (by decide) (by omega)
        omega
      have hb : bitLen n ≤ 24 := bitLenAux_le n n 24 (by omega)
      have := hc.2
      omega
    · -- bits are dropped above the integers: the value is at least 2^24
      exfalso
      obtain ⟨hn, hp⟩ := shift_pos_cases n e s hs hspos hes1
      by_cases he : 0 ≤ e
      · have h2 : (-e).toNat = 0 := by omega
        rw [h2] at H
        simp only [pow_zero, mul_one] at H
        have h5 : n ≤ n * 2 ^ e.toNat := Nat.le_mul_of_pos_right _ (Nat.pow_pos (by decide))
        have h6 : 2 ^ 25 ≤ 2 ^ (s + 24) := Nat.pow_le_pow_right (by decide) (by omega)
        have h7 : (2 : Nat) ^ 25 = 2 * 2 ^ 24 := by decide
        omega
      · have h1 : e.toNat = 0 := by omega
        rw [h1] at H
        simp only [pow_zero, mul_one] at H
        have hlt : K * 2 ^ (-e).toNat < 2 ^ 24 * 2 ^ (-e).toNat :=
          Nat.mul_lt_mul_of_pos_right hK (Nat.pow_pos (by decide))
        rw [← Nat.pow_add] at hlt
        have h6 : 2 ^ (24 + (-e).toNat) ≤ 2 ^ (s + 23) :=
          Nat.pow_le_pow_right (by decide) (by omega)
        have h7 : 2 ^ (s + 24) = 2 * 2 ^ (s + 23) := by
          rw [show s + 24 = (s + 23) + 1 by omega, Nat.pow_succ]
          omega
        omega

/-- Rounding to binary32 never carries an exact value across an integer below `2^24`
that bounds it from above. -/
theorem round_le_bound (n : Nat) (e : Int) (K : Nat) (hK : K < 2 ^ 24)
    (H : F32.le (F32.fin false n e) (F32.fin false K 0) = true) :
    ∃ m e1, F32.round false n e = F32.fin false m e1 ∧
      F32.le (F32.fin false m e1) (F32.fin false K 0) = true := by
  rw [F32.le_fin_fin] at H
  simp only [sub_zero, zero_sub] at H
  have core := round_core_le n e K _ rfl hK H
  refine ⟨F32.roundNearestEven n (max (bitLen n - 24) ((-149 - e).toNat)),
    e + ((max (bitLen n - 24) ((-149 - e).toNat) : Nat) : Int), ?_, ?_⟩
  · unfold F32.round
    simp only
    rw [if_neg core.1]
  · rw [F32.le_fin_fin]
    simpa using core.2

/-- When the rounded value is at most an integer `K` below `2^24`, the exact value is at
most `K + 1/2`. -/
theorem round_error_bound (n : Nat) (e : Int) (K m : Nat) (e1 : Int) (hK : K < 2 ^ 24)
    (hr : F32.round false n e = F32.fin false m e1)
    (hle : F32.le (F32.fin false m e1) (F32.fin false K 0) = true) :
    F32.le (F32.fin false (2 * n) e) (F32.fin false (2 * K + 1) 0) = true := by
  rw [F32.le_fin_fin] at hle ⊢
  simp only [sub_zero, zero_sub] at hle ⊢
  unfold F32.round at hr
  simp only at hr
  split at hr
  · exact absurd hr (by simp)
  · injection hr with _ hm he1
    generalize hs : max (bitLen n - 24) ((-149 - e).toNat) = s at hm he1
    subst hm
    subst he1
    have hup := roundNearestEven_upper n s
    by_cases hes : e + (s : Int) ≤ 0
    · have h1 : e.toNat = 0 := by omega
      have h2 : (e + (s : Int)).toNat = 0 := by omega
      have h3 : (-(e + (s : Int))).toNat = (-e).toNat - s := by omega
      have hsa : s ≤ (-e).toNat := by omega
      rw [h2, h3] at hle
      rw [h1]
      simp only [pow_zero, mul_one] at hle ⊢
      have hpow : 2 ^ (-e).toNat = 2 ^ ((-e).toNat - s) * 2 ^ s := by
        rw [← Nat.pow_add, Nat.sub_add_cancel hsa]
      rw [hpow]
      have hA : 0 < 2 ^ ((-e).toNat - s) := Nat.pow_pos (by decide)
      have hS : 0 < 2 ^ s := Nat.pow_pos (by decide)
      generalize 2 ^ ((-e).toNat - s) = A at hle hA ⊢
      generalize 2 ^ s = S at hup hS ⊢
      generalize F32.roundNearestEven n s = r at hle hup
      nlinarith [Nat.mul_le_mul_right S hle, Nat.le_mul_of_pos_left S hA]
    · have hes1 : 0 < e + (s : Int) := by omega
      have h3 : (-(e + (s : Int))).toNat = 0 := by omega
      rw [h3] at hle
      simp only [pow_zero, mul_one] at hle
      rcases Nat.eq_zero_or_pos s with hs0 | hspos
      · subst hs0
        rw [roundNearestEven_zero] at hle
        have h2 : (-e).toNat = 0 := by omega
        have h4 : e + ((0 : Nat) : Int) = e := by simp
        rw [h4] at hle
        rw [h2]
        simp only [pow_zero, mul_one]
        rw [Nat.mul_assoc]
        omega
      · exfalso
        obtain ⟨hn, hp⟩ := shift_pos_cases n e s hs.symm hspos hes1
        have hq : 2 ^ 23 ≤ n / 2 ^ s := by
          rw [Nat.le_div_iff_mul_le (Nat.pow_pos (by decide)), ← Nat.pow_add]
          have h7 : 2 ^ (s + 24) = 2 * 2 ^ (23 + s) := by
            rw [show s + 24 = (23 + s) + 1 by omega, Nat.pow_succ]
            omega
          omega
        have hge := roundNearestEven_ge n s
        have h8 : 2 ≤ 2 ^ (e + (s : Int)).toNat := by
          calc 2 = 2 ^ 1 := by decide
            _ ≤ 2 ^ (e + (s : Int)).toNat := Nat.pow_le_pow_right (by decide) (by omega)
        have h9 : F32.roundNearestEven n s * 2
            ≤ F32.roundNearestEven n s * 2 ^ (e + (s : Int)).toNat :=
          Nat.mul_le_mul_left _ h8
        have h10 : (2 : Nat) ^ 24 = 2 * 2 ^ 23 := by decide
        omega
/-! ## SetResolution against exact arithmetic -/

theorem F32.magValue_zero_exp (a : Nat) : F32.magValue a 0 = a := by
  simp [F32.magValue]

theorem F32.magValue_mul (a : Nat) (ea : Int) (b : Nat) (eb : Int) :
    F32.magValue (a * b) (ea + eb) = F32.magValue a ea * F32.magValue b eb := by
  unfold F32.magValue
  rw [zpow_add₀ (by norm_num : (2 : ℚ) ≠ 0)]
  push_cast
  ring

theorem F32.magValue_nonneg (a : Nat) (ea : Int) : 0 ≤ F32.magValue a ea := by
  unfold F32.magValue
  exact mul_nonneg (Nat.cast_nonneg a) (le_of_lt (zpow_pos (by norm_num) ea))

theorem scale_value_ge_one (ms : Nat) (es : Int)
    (h : inMultiplierRange (F32.fin false ms es)) : 1 ≤ F32.magValue ms es := by
  have h1 := h.1
  unfold FHighResScreenshotConfig.MinResolutionMultipler at h1
  rw [F32.le_fin_fin_value, F32.magValue_zero_exp] at h1
  simpa using h1

theorem ofU32_exp_nonneg (w m1 : Nat) (e1 : Int)
    (h : F32.ofU32 w = F32.fin false m1 e1) : 0 ≤ e1 := by
  unfold F32.ofU32 F32.round at h
  simp only at h
  split at h
  · exact absurd h (by simp)
  · injection h with _ _ he
    omega

theorem gt_false_of_le (a b : Nat) (ea eb : Int)
    (h : F32.le (F32.fin false a ea) (F32.fin false b eb) = true) :
    F32.gt (F32.fin false a ea) (F32.fin false b eb) = false := by
  simpa [F32.le, F32.gt] using h

/-- If the exact product `w * scale` is at most the limit, the product the code forms is
not greater than the limit. -/
theorem accept_of_exact_le (M w ms : Nat) (es : Int) (hM : M < 2 ^ 24)
    (hs1 : 1 ≤ F32.magValue ms es) (hex : (w : ℚ) * F32.magValue ms es ≤ (M : ℚ)) :
    F32.gt (F32.mul (F32.ofU32 w) (F32.fin false ms es)) (F32.ofU32 M) = false := by
  have hwM : w ≤ M := by
    have h1 : (w : ℚ) ≤ (w : ℚ) * F32.magValue ms es :=
      le_mul_of_one_le_right (Nat.cast_nonneg w) hs1
    exact_mod_cast le_trans h1 hex
  have hw24 : w < 2 ^ 24 := Nat.lt_of_le_of_lt hwM hM
  rw [ofU32_of_lt w hw24, ofU32_of_lt M hM]
  have H : F32.le (F32.fin false (w * ms) (0 + es)) (F32.fin false M 0) = true := by
    rw [F32.le_fin_fin_value, F32.magValue_mul, F32.magValue_zero_exp, F32.magValue_zero_exp]
    exact hex
  obtain ⟨m, e1, hr, hle⟩ := round_le_bound _ _ _ hM H
  have hmul : F32.mul (F32.fin false w 0) (F32.fin false ms es)
      = F32.round false (w * ms) (0 + es) := rfl
  rw [hmul, hr]
  exact gt_false_of_le _ _ _ _ hle

/-- If the product the code forms is not greater than the limit, the exact product
`w * scale` is at most the limit plus one half. -/
theorem exact_le_of_accept (M w ms : Nat) (es : Int) (hM : M < 2 ^ 24)
    (hs1 : 1 ≤ F32.magValue ms es) (hms : ms ≠ 0)
    (hacc : F32.gt (F32.mul (F32.ofU32 w) (F32.fin false ms es)) (F32.ofU32 M) = false) :
    (w : ℚ) * F32.magValue ms es ≤ (M : ℚ) + 1 / 2 := by
  rw [ofU32_of_lt M hM] at hacc
  rcases F32.round_cases false w 0 with hinf | ⟨m1, e1, h1⟩
  · have : F32.ofU32 w = F32.inf false := hinf
    rw [this] at hacc
    simp [F32.mul, hms, F32.gt, F32.lt] at hacc
  · have hw : F32.ofU32 w = F32.fin false m1 e1 := h1
    have hmul : F32.mul (F32.fin false m1 e1) (F32.fin false ms es)
        = F32.round false (m1 * ms) (e1 + es) := rfl
    rw [hw, hmul] at hacc
    rcases F32.round_cases false (m1 * ms) (e1 + es) with hpinf | ⟨m, e2, hp⟩
    · rw [hpinf] at hacc
      simp [F32.gt, F32.lt] at hacc
    · rw [hp] at hacc
      have hle : F32.le (F32.fin false m e2) (F32.fin false M 0) = true := by
        simpa [F32.le, F32.gt] using hacc
      have hbound := round_error_bound _ _ _ _ _ hM hp hle
      rw [F32.le_fin_fin_value, ← Nat.mul_assoc 2 m1 ms, F32.magValue_mul,
        F32.magValue_zero_exp] at hbound
      -- the converted width is itself at most the limit
      have hV1 : F32.magValue (2 * m1) e1 ≤ ((2 * M + 1 : Nat) : ℚ) := by
        have hnn := F32.magValue_nonneg (2 * m1) e1
        exact le_trans (le_mul_of_one_le_right hnn hs1) hbound
      have he1 := ofU32_exp_nonneg w m1 e1 hw
      have hle1 : F32.le (F32.fin false m1 e1) (F32.fin false M 0) = true := by
        have h2 : F32.le (F32.fin false (2 * m1) e1) (F32.fin false (2 * M + 1) 0) = true := by
          rw [F32.le_fin_fin_value, F32.magValue_zero_exp]
          exact hV1
        rw [F32.le_fin_fin] at h2 ⊢
        simp only [sub_zero, zero_sub] at h2 ⊢
        have h3 : (-e1).toNat = 0 := by omega
        rw [h3] at h2 ⊢
        simp only [pow_zero, mul_one] at h2 ⊢
        rw [Nat.mul_assoc] at h2
        omega
      have hwb := round_error_bound w 0 M m1 e1 hM h1 hle1
      rw [F32.le_fin_fin] at hwb
      simp only [sub_zero, zero_sub, neg_zero, Int.toNat_zero, pow_zero, mul_one] at hwb
      have hw24 : w < 2 ^ 24 := by omega
      have hexact := ofU32_of_lt w hw24
      rw [hw] at hexact
      injection hexact with _ hm1 he1z
      subst hm1
      subst he1z
      have h4 : F32.magValue (2 * m1) 0 = 2 * (m1 : ℚ) := by
        rw [F32.magValue_zero_exp]
        push_cast
        ring
      rw [h4] at hbound
      push_cast at hbound
      linarith

theorem shot_SetResolution_true_iff (P : Platform) (w h : Nat) (scale : F32)
    (c : FHighResScreenshotConfig) (g : Globals) :
    (FHighResScreenshotConfig.SetResolution P w h scale c g).1 = true ↔
      (F32.gt (F32.mul (F32.ofU32 w) scale) (F32.ofU32 P.Max2DTextureDimension) = false ∧
       F32.gt (F32.mul (F32.ofU32 h) scale) (F32.ofU32 P.Max2DTextureDimension) = false) := by
  cases hx : F32.gt (F32.mul (F32.ofU32 w) scale) (F32.ofU32 P.Max2DTextureDimension) <;>
    cases hy : F32.gt (F32.mul (F32.ofU32 h) scale) (F32.ofU32 P.Max2DTextureDimension) <;>
    simp [FHighResScreenshotConfig.SetResolution, hx, hy]

theorem dump_SetResolution_true_iff (P : Platform) (w h : Nat) (scale : F32)
    (d : FHighResStandaloneBufferDumpConfig) (g : Globals) :
    (FHighResStandaloneBufferDumpConfig.SetResolution P w h scale d g).1 = true ↔
      (F32.gt (F32.mul (F32.ofU32 w) scale) (F32.ofU32 P.Max2DTextureDimension) = false ∧
       F32.gt (F32.mul (F32.ofU32 h) scale) (F32.ofU32 P.Max2DTextureDimension) = false) := by
  cases hx : F32.gt (F32.mul (F32.ofU32 w) scale) (F32.ofU32 P.Max2DTextureDimension) <;>
    cases hy : F32.gt (F32.mul (F32.ofU32 h) scale) (F32.ofU32 P.Max2DTextureDimension) <;>
    simp [FHighResStandaloneBufferDumpConfig.SetResolution, hx, hy]

/-- The exact comparison `w * scale ≤ M` as a comparison of dyadic magnitudes. -/
theorem exact_product_le_iff (w ms : Nat) (es : Int) (M : Nat) :
    (w : ℚ) * (F32.fin false ms es).value ≤ (M : ℚ) ↔
      F32.le (F32.fin false (w * ms) (0 + es)) (F32.fin false M 0) = true := by
  rw [F32.le_fin_fin_value, F32.magValue_mul, F32.magValue_zero_exp, F32.magValue_zero_exp]
  simp [F32.value]

/-- The exact comparison `w * scale ≤ M + 1/2` as a comparison of dyadic magnitudes. -/
theorem exact_product_le_half_iff (w ms : Nat) (es : Int) (M : Nat) :
    (w : ℚ) * (F32.fin false ms es).value ≤ (M : ℚ) + 1 / 2 ↔
      F32.le (F32.fin false (2 * w * ms) (0 + es)) (F32.fin false (2 * M + 1) 0) = true := by
  rw [F32.le_fin_fin_value, F32.magValue_mul, F32.magValue_zero_exp, F32.magValue_zero_exp]
  simp only [F32.value, Bool.false_eq_true, if_false]
  push_cast
  constructor <;> intro h <;> linarith

/-- C5 fails as stated. On the sample platform (limit 16384) `SetResolution` of either
configuration accepts base width 12288 with the float nearest to 4/3, although the exact
product exceeds the limit; and with the limit 16777219 it accepts base width 16777220
with scale 1.0, although 16777220 exceeds the limit. -/
theorem C5_accepts_above_limit :
    (inMultiplierRange fourThirds ∧ F32.isBinary32 fourThirds = true ∧
      (FHighResScreenshotConfig.SetResolution samplePlatform 12288 1 fourThirds sampleConfig
        sampleGlobals).1 = true ∧
      (FHighResStandaloneBufferDumpConfig.SetResolution samplePlatform 12288 1 fourThirds
        sampleDumpConfig sampleGlobals).1 = true ∧
      ¬ ((12288 : ℚ) * fourThirds.value ≤ (samplePlatform.Max2DTextureDimension : ℚ))) ∧
    (inMultiplierRange (F32.fin false 1 0) ∧
      (FHighResScreenshotConfig.SetResolution largeLimitPlatform 16777220 1 (F32.fin false 1 0)
        sampleConfig sampleGlobals).1 = true ∧
      (FHighResStandaloneBufferDumpConfig.SetResolution largeLimitPlatform 16777220 1
        (F32.fin false 1 0) sampleDumpConfig sampleGlobals).1 = true ∧
      ¬ ((16777220 : ℚ) * (F32.fin false 1 0).value
          ≤ (largeLimitPlatform.Max2DTextureDimension : ℚ))) := by
  refine ⟨⟨⟨by decide, by decide⟩, by decide, by decide, by decide, ?_⟩,
    ⟨⟨by decide, by decide⟩, by decide, by decide, ?_⟩⟩
  · exact fun hle => absurd ((exact_product_le_iff 12288 11184811 (-23) 16384).mp hle)
      (by decide)
  · exact fun hle => absurd ((exact_product_le_iff 16777220 1 0 16777219).mp hle) (by decide)

/-- C5 (amended): for a scale within `[1.0, 10.0]` and a maximum texture dimension below
`2^24`, both `SetResolution` variants return the same verdict; it is true if the exact
products `w * scale` and `h * scale` are at most the maximum, and only if they are at
most the maximum plus one half; so when both products are integers it is true exactly
when they are at most the maximum. -/
theorem C5_SetResolution_accepts_exact (P : Platform) (w h : Nat) (scale : F32)
    (hScale : inMultiplierRange scale) (hMax : P.Max2DTextureDimension < 2 ^ 24)
    (c : FHighResScreenshotConfig) (d : FHighResStandaloneBufferDumpConfig) (g : Globals) :
    ((FHighResStandaloneBufferDumpConfig.SetResolution P w h scale d g).1
      = (FHighResScreenshotConfig.SetResolution P w h scale c g).1) ∧
    (((w : ℚ) * scale.value ≤ (P.Max2DTextureDimension : ℚ) ∧
      (h : ℚ) * scale.value ≤ (P.Max2DTextureDimension : ℚ)) →
        (FHighResScreenshotConfig.SetResolution P w h scale c g).1 = true) ∧
    ((FHighResScreenshotConfig.SetResolution P w h scale c g).1 = true →
      ((w : ℚ) * scale.value ≤ (P.Max2DTextureDimension : ℚ) + 1 / 2 ∧
       (h : ℚ) * scale.value ≤ (P.Max2DTextureDimension : ℚ) + 1 / 2)) ∧
    (∀ px py : Nat, (w : ℚ) * scale.value = (px : ℚ) → (h : ℚ) * scale.value = (py : ℚ) →
      ((FHighResScreenshotConfig.SetResolution P w h scale c g).1 = true ↔
        (px ≤ P.Max2DTextureDimension ∧ py ≤ P.Max2DTextureDimension))) := by
  obtain ⟨ms, es, rfl, hms⟩ := inMultiplierRange_pos scale hScale
  have hs1 := scale_value_ge_one ms es hScale
  have hval : (F32.fin false ms es).value = F32.magValue ms es := by simp [F32.value]
  rw [hval]
  have hsound : ((w : ℚ) * F32.magValue ms es ≤ (P.Max2DTextureDimension : ℚ) ∧
      (h : ℚ) * F32.magValue ms es ≤ (P.Max2DTextureDimension : ℚ)) →
        (FHighResScreenshotConfig.SetResolution P w h (F32.fin false ms es) c g).1 = true := by
    intro hex
    rw [shot_SetResolution_true_iff]
    exact ⟨accept_of_exact_le _ w ms es hMax hs1 hex.1,
      accept_of_exact_le _ h ms es hMax hs1 hex.2⟩
  have honly : (FHighResScreenshotConfig.SetResolution P w h (F32.fin false ms es) c g).1 = true →
      ((w : ℚ) * F32.magValue ms es ≤ (P.Max2DTextureDimension : ℚ) + 1 / 2 ∧
       (h : ℚ) * F32.magValue ms es ≤ (P.Max2DTextureDimension : ℚ) + 1 / 2) := by
    intro hacc
    rw [shot_SetResolution_true_iff] at hacc
    exact ⟨exact_le_of_accept _ w ms es hMax hs1 hms hacc.1,
      exact_le_of_accept _ h ms es hMax hs1 hms hacc.2⟩
  refine ⟨?_, hsound, honly, ?_⟩
  · have h1 := shot_SetResolution_true_iff P w h (F32.fin false ms es) c g
    have h2 := dump_SetResolution_true_iff P w h (F32.fin false ms es) d g
    cases hs : (FHighResScreenshotConfig.SetResolution P w h (F32.fin false ms es) c g).1 <;>
      cases hd : (FHighResStandaloneBufferDumpConfig.SetResolution P w h (F32.fin false ms es)
        d g).1 <;> simp_all
  · intro px py hpx hpy
    constructor
    · intro hacc
      have hb := honly hacc
      rw [hpx, hpy] at hb
      have hx : (px : ℚ) < (P.Max2DTextureDimension : ℚ) + 1 := by linarith [hb.1]
      have hy : (py : ℚ) < (P.Max2DTextureDimension : ℚ) + 1 := by linarith [hb.2]
      have hx1 : px < P.Max2DTextureDimension + 1 := by exact_mod_cast hx
      have hy1 : py < P.Max2DTextureDimension + 1 := by exact_mod_cast hy
      omega
    · intro hle
      apply hsound
      rw [hpx, hpy]
      exact ⟨by exact_mod_cast hle.1, by exact_mod_cast hle.2⟩

/-- C5 (amended), on the sample platform with scale 1.5: 1920 × 1080 gives the products
2880 and 1620, within the limit 16384, and both variants return true; 16384 × 1080 gives
24576, above the limit plus one half, and both return false. -/
theorem C5_SetResolution_accepts_exact_witness :
    ((FHighResScreenshotConfig.SetResolution samplePlatform 1920 1080 onePointFive sampleConfig
        sampleGlobals).1 = true ∧
      (FHighResStandaloneBufferDumpConfig.SetResolution samplePlatform 1920 1080 onePointFive
        sampleDumpConfig sampleGlobals).1 = true) ∧
    ((FHighResScreenshotConfig.SetResolution samplePlatform 16384 1080 onePointFive sampleConfig
        sampleGlobals).1 = false ∧
      (FHighResStandaloneBufferDumpConfig.SetResolution samplePlatform 16384 1080 onePointFive
        sampleDumpConfig sampleGlobals).1 = false) := by
  have hA := C5_SetResolution_accepts_exact samplePlatform 1920 1080 onePointFive
    ⟨by decide, by decide⟩ (by decide) sampleConfig sampleDumpConfig sampleGlobals
  have hB := C5_SetResolution_accepts_exact samplePlatform 16384 1080 onePointFive
    ⟨by decide, by decide⟩ (by decide) sampleConfig sampleDumpConfig sampleGlobals
  have hAok := hA.2.1 ⟨(exact_product_le_iff 1920 3 (-1) 16384).mpr (by decide),
    (exact_product_le_iff 1080 3 (-1) 16384).mpr (by decide)⟩
  have hBno : (FHighResScreenshotConfig.SetResolution samplePlatform 16384 1080 onePointFive
      sampleConfig sampleGlobals).1 = false := by
    cases hb : (FHighResScreenshotConfig.SetResolution samplePlatform 16384 1080 onePointFive
      sampleConfig sampleGlobals).1 with
    | false => rfl
    | true =>
      exact absurd ((exact_product_le_half_iff 16384 3 (-1) 16384).mp (hB.2.2.1 hb).1)
        (by decide)
  exact ⟨⟨hAok, hA.1.trans hAok⟩, ⟨hBno, hB.1.trans hBno⟩⟩

end HighResScreenshot
